import Mathlib

/-!
Verification of the TFBot gameboard subsystem.

The definitions in this file are shallow embeddings of the Python source:
* `games/packs/snakes_ladders.py` — the Snakes & Ladders rule pack
  (tile/coordinate conversion, dice-roll resolution, win detection);
* `tfbot/games.py` — session management: per-thread command locks,
  message capture/queue/replay, swap chains and their reversal,
  and the `gamequit` forfeit command.

Python `dict`s are embedded as insertion-ordered association lists
(updating an existing key keeps its position, a new key is appended),
matching CPython's documented iteration order.  Python `int`s are
embedded as `Int` (or `Nat` where the source value is provably
non-negative).  Binary payloads are embedded as `List Nat` byte
sequences.
-/

namespace TFBot

/-- Insertion-ordered association-list lookup, embedding `dict.get(k)`. -/
def alistGet {α : Type} (m : List (Nat × α)) (k : Nat) : Option α :=
  (m.find? (fun p => p.1 = k)).map (fun p => p.2)

/-- Insertion-ordered association-list update, embedding `d[k] = v`:
an existing key keeps its position, a new key is appended. -/
def alistSet {α : Type} (m : List (Nat × α)) (k : Nat) (v : α) : List (Nat × α) :=
  if m.any (fun p => p.1 = k) then
    m.map (fun p => if p.1 = k then (k, v) else p)
  else
    m ++ [(k, v)]

/-- Association-list key removal, embedding `del d[k]`. -/
def alistErase {α : Type} (m : List (Nat × α)) (k : Nat) : List (Nat × α) :=
  m.filter (fun p => ¬ p.1 = k)

/-- Embedding of the parts of `GameConfig` used by the snakes & ladders pack:
`grid` rows/cols and the `rules` entries `win_tile`, `starting_tile`,
`snakes`, `ladders`, and the tile-colour tables. -/
structure GameConfig where
  rows : Nat := 10
  cols : Nat := 10
  win_tile : Int := 100
  starting_tile : Int := 1
  snakes : List (Int × Int) := []
  ladders : List (Int × Int) := []
  tile_colors_map : List (String × String) := []
  tile_colors : List (String × String) := []
deriving Repr, DecidableEq

/-- String-keyed association lookup (for config colour tables). -/
def slistGet (m : List (String × String)) (k : String) : Option String :=
  (m.find? (fun p => p.1 = k)).map (fun p => p.2)

/-- Embedding of `tile_number_to_alphanumeric` from
`games/packs/snakes_ladders.py`: converts a tile number to the
boustrophedon coordinate string (e.g. `16 -> "E2"` on a 10x10 grid),
or `none` when the tile is below 1 or beyond `rows*cols`. -/
def tile_number_to_alphanumeric (tile_num : Int) (cfg : GameConfig) : Option String :=
  if tile_num < 1 then none
  else
    let rows := cfg.rows
    let cols := cfg.cols
    let max_tile : Int := (rows : Int) * (cols : Int)
    if tile_num > max_tile then none
    else
      -- the guards give 1 ≤ tile_num ≤ rows*cols, so tile_num - 1 is a Nat
      let t : Nat := (tile_num - 1).toNat
      let row : Nat := t / cols + 1
      let position_in_row : Nat := t % cols + 1
      let column : Nat := if row % 2 = 1 then position_in_row else cols - position_in_row + 1
      let col_letter : Char := Char.ofNat ('A'.toNat + column - 1)
      some (String.mk [col_letter] ++ toString row)

/-- Modelled from the spec: `parse_alphanumeric_coordinate` from
`tfbot/game_board.py`, which is not under `src/`.  Per the spec's
coordinate encoding (§6, "A1..J10"), a coordinate is one upper-case
column letter followed by a 1-based row number; the parser returns the
1-based `(column, row)` pair, or `none` for malformed input. -/
def parse_alphanumeric_coordinate (coord : String) : Option (Nat × Nat) :=
  match coord.toList with
  | [] => none
  | c :: rest =>
    if c.isUpper then
      if rest ≠ [] ∧ rest.all (fun d => d.isDigit) then
        let column := c.toNat - 'A'.toNat + 1
        let row := rest.foldl (fun acc d => acc * 10 + (d.toNat - '0'.toNat)) 0
        some (column, row)
      else none
    else none

/-- Embedding of `alphanumeric_to_tile_number` from
`games/packs/snakes_ladders.py`: parses the coordinate and undoes the
zig-zag layout. -/
def alphanumeric_to_tile_number (coord : String) (cfg : GameConfig) : Option Int :=
  match parse_alphanumeric_coordinate coord with
  | none => none
  | some (column_index_1, row_index_1) =>
    let cols := cfg.cols
    let position_in_row : Int :=
      if row_index_1 % 2 = 1 then (column_index_1 : Int)
      else (cols : Int) - (column_index_1 : Int) + 1
    some (((row_index_1 : Int) - 1) * (cols : Int) + position_in_row)

/-- The default 10x10 grid configuration (`rows = cols = 10`). -/
def cfg10 : GameConfig := {}

/-- Integer-keyed association lookup for the snakes/ladders tables
(embedding `new_tile in snakes` / `snakes[new_tile]`). -/
def intGet (m : List (Int × Int)) (k : Int) : Option Int :=
  (m.find? (fun p => p.1 = k)).map (fun p => p.2)

/-- Embedding of the `_pack_data` dictionary initialised by
`get_game_data` in `games/packs/snakes_ladders.py`, plus the
`removed_player_positions` entry added by `command_gamequit`. -/
structure PackData where
  tile_numbers : List (Nat × Int) := []
  -- the metadata dictionaries hold optional values: `_swap_pack_player_metadata`
  -- writes `None` into them when one side of a swap has no entry
  transformation_counts : List (Nat × Option Nat) := []
  original_characters : List (Nat × Option String) := []
  real_body_characters : List (Nat × Option String) := []
  mind_changed : List (Nat × Option Bool) := []
  turn_order : List Nat := []
  player_numbers : List (Nat × Nat) := []
  current_turn_index : Nat := 0
  players_rolled_this_turn : List Nat := []
  winners : List Nat := []
  players_reached_end_this_turn : List Nat := []
  goal_reached_turn : List (Nat × Nat) := []
  forfeited_players : List Nat := []
  game_ended : Bool := false
  removed_player_positions : List (Nat × String) := []
deriving Repr, DecidableEq

/-- Embedding of the fields of `GamePlayer` (from `tfbot/game_models.py`,
declared outside `src/` but fully determined by its uses in the sources)
that the gameboard code reads or writes. -/
structure GamePlayer where
  user_id : Nat
  character_name : Option String := none
  grid_position : String := "A1"
  background_id : Option Nat := none
  outfit_name : Option String := none
deriving Repr, DecidableEq

/-- The slice of `GameState` the snakes & ladders pack functions touch:
the participant map, the turn counter and the pack data. -/
structure SLState where
  players : List (Nat × GamePlayer) := []
  turn_count : Nat := 0
  data : PackData := {}
deriving Repr, DecidableEq

/-- `"?" `-defaulting number formatting, embedding
`data.get('player_numbers', {}).get(uid, "?")` interpolations. -/
def numOrQ : Option Nat → String
  | some n => toString n
  | none => "?"

/-- Python `min` over a list of naturals; the `[]` case is unreachable
behind the source's non-emptiness guard. -/
def pyMinNat : List Nat → Nat
  | [] => 0
  | x :: xs => xs.foldl min x

/-- The hard-coded `color_mapping` table of `get_tile_color_info`. -/
def color_mapping : List (String × String) :=
  [("yellow", "yellow"), ("green", "green"), ("pink", "pink"),
   ("dark_blue", "dark_blue"), ("light_blue", "light_blue"),
   ("orange", "orange"), ("purple", "purple"), ("red", "red"),
   ("blue", "dark_blue")]

/-- The hard-coded `color_emoji_map` table of `get_tile_color_info`. -/
def color_emoji_map : List (String × String) :=
  [("yellow", "🟡"), ("green", "🟢"), ("pink", "🩷"),
   ("dark_blue", "🔵"), ("light_blue", "🔵"),
   ("orange", "🟠"), ("purple", "🟣"), ("red", "🔴")]

/-- The hard-coded `color_descriptions` table of `get_tile_color_info`. -/
def color_descriptions : List (String × String) :=
  [("orange", "Gender Swap"), ("dark_blue", "Age Swap"),
   ("light_blue", "Save Body"),
   ("purple", "Load Saved Body (or original if none saved)"),
   ("yellow", "Random Transformation"),
   ("red", "Random Transformation for Someone Else"),
   ("green", "Body Swap"), ("pink", "Mind Change/Command")]

/-- Embedding of `str.title()` for the colour display name. -/
def pyTitle (s : String) : String :=
  String.intercalate " " ((s.splitOn " ").map String.capitalize)

/-- Embedding of `get_tile_color_info` from
`games/packs/snakes_ladders.py`: informational message about the colour
of the landed tile, `none` when the tile has no configured colour or
effect. -/
def get_tile_color_info (tile_number : Int) (cfg : GameConfig) : Option String :=
  match slistGet cfg.tile_colors_map (toString tile_number) with
  | none => none
  | some tile_color =>
    if tile_color = "" then none
    else
      let config_color := (slistGet color_mapping tile_color).getD tile_color
      match slistGet cfg.tile_colors config_color with
      | none => none
      | some effect =>
        if effect = "" then none
        else
          let emoji := (slistGet color_emoji_map config_color).getD "ℹ️"
          let description := (slistGet color_descriptions config_color).getD "special effect"
          let color_display := pyTitle (config_color.replace "_" " ")
          let article :=
            if ["a", "e", "i", "o", "u"].any
                (fun v => v.isPrefixOf color_display.toLower) then "an" else "a"
          some s!"{emoji} Landed on {article} {color_display} tile - {description}"

/-- The turn-eligibility scan of `on_dice_rolled` (lines 241-264 of the
pack): the first entry of `turn_order` that is still in
`game_state.players`, has not rolled this turn, has not forfeited, and
is below the goal tile. -/
def next_player_to_roll (gs : SLState) (win_tile : Int) : Option Nat :=
  gs.data.turn_order.find? (fun user_id =>
    (alistGet gs.players user_id).isSome &&
    !decide (user_id ∈ gs.data.players_rolled_this_turn) &&
    !decide (user_id ∈ gs.data.forfeited_players) &&
    decide ((alistGet gs.data.tile_numbers user_id).getD 1 < win_tile))

/-- Writes a freshly computed grid coordinate onto the participant's
`GamePlayer` record (the `player.grid_position = new_pos` mutations of
`on_dice_rolled`); a `none` coordinate leaves the record unchanged. -/
def set_grid_position (players : List (Nat × GamePlayer)) (user_id : Nat)
    (pos : Option String) : List (Nat × GamePlayer) :=
  match pos with
  | none => players
  | some p =>
    match alistGet players user_id with
    | none => players
    | some pl => alistSet players user_id { pl with grid_position := p }

/-- One iteration of the goal-tracking loop at the top of
`check_win_condition` (lines 530-542 of the pack): a participant at or
past the goal is stamped with the current turn number on first arrival,
and added to `winners` and `players_reached_end_this_turn`. -/
def cwc_track (current_turn : Nat) (win_tile : Int)
    (acc : PackData × List Nat) (entry : Nat × Int) : PackData × List Nat :=
  let data := acc.1
  let new_goal_reachers_this_turn := acc.2
  let user_id := entry.1
  let tile_num := entry.2
  if win_tile ≤ tile_num then
    let step1 : PackData × List Nat :=
      if (alistGet data.goal_reached_turn user_id).isNone then
        ({ data with goal_reached_turn := alistSet data.goal_reached_turn user_id current_turn },
         new_goal_reachers_this_turn ++ [user_id])
      else (data, new_goal_reachers_this_turn)
    let data := step1.1
    if user_id ∈ data.winners then (data, step1.2)
    else
      let data := { data with winners := data.winners ++ [user_id] }
      if user_id ∈ data.players_reached_end_this_turn then (data, step1.2)
      else
        ({ data with players_reached_end_this_turn :=
            data.players_reached_end_this_turn ++ [user_id] }, step1.2)
  else (data, new_goal_reachers_this_turn)

/-- Mention line for one winner in the game-over message. -/
def winner_mention (gs : SLState) (data : PackData) (user_id : Nat) : String :=
  match alistGet gs.players user_id with
  | some player =>
    let player_name := player.character_name.getD s!"Player {user_id}"
    let player_num := numOrQ (alistGet data.player_numbers user_id)
    let turn_reached := numOrQ (alistGet data.goal_reached_turn user_id)
    s!"<@{user_id}> ({player_name} - Player {player_num}, Turn {turn_reached})"
  | none => s!"<@{user_id}>"

/-- Mention line for one winner in the mid-game "reached the goal"
message. -/
def reacher_mention (gs : SLState) (user_id : Nat) : String :=
  match alistGet gs.players user_id with
  | some player =>
    let player_name := player.character_name.getD s!"Player {user_id}"
    s!"<@{user_id}> ({player_name})"
  | none => s!"<@{user_id}>"

/-- One line of the final-results list in the game-over message. -/
def final_result_line (gs : SLState) (data : PackData) (user_id : Nat) : String :=
  let player_name :=
    match alistGet gs.players user_id with
    | some player => player.character_name.getD s!"Player {user_id}"
    | none => s!"Player {user_id}"
  let player_num := numOrQ (alistGet data.player_numbers user_id)
  if user_id ∈ data.forfeited_players then
    match alistGet data.tile_numbers user_id with
    | some tile_num =>
      s!"<@{user_id}> ({player_name} - Player {player_num}, Tile {tile_num}, **FORFEIT/QUIT**)"
    | none => s!"<@{user_id}> ({player_name} - Player {player_num}, **FORFEIT/QUIT**)"
  else
    let turn_reached := numOrQ (alistGet data.goal_reached_turn user_id)
    match alistGet data.tile_numbers user_id with
    | some tile_num =>
      s!"<@{user_id}> ({player_name} - Player {player_num}, Tile {tile_num}, Turn {turn_reached})"
    | none => s!"<@{user_id}> ({player_name} - Player {player_num}, Turn {turn_reached})"

/-- The `sorted(all_player_ids, key=player_number)` id list of the
game-over message.  CPython's set iteration order is unspecified; it is
modelled as first-occurrence order of `turn_order` followed by the
`tile_numbers` keys, to which the stable sort by player number (999 for
missing) is applied. -/
def all_player_ids_sorted (data : PackData) : List Nat :=
  let ids := (data.turn_order ++ data.tile_numbers.map (fun p => p.1)).dedup
  ids.mergeSort (fun a b =>
    (alistGet data.player_numbers a).getD 999 ≤ (alistGet data.player_numbers b).getD 999)

/-- Embedding of `check_win_condition` from
`games/packs/snakes_ladders.py`: stamps goal arrivals with the current
turn number, and when every participant is at or past the goal ends the
game and recomputes `winners` as exactly the participants stamped with
the minimum turn number.  Returns the updated state together with the
`(win_message, game_ended)` pair. -/
def check_win_condition (gs : SLState) (cfg : GameConfig) :
    SLState × (Option String × Bool) :=
  let win_tile := cfg.win_tile
  let current_turn := gs.turn_count
  let tracked := gs.data.tile_numbers.foldl (cwc_track current_turn win_tile) (gs.data, [])
  let data := tracked.1
  let new_goal_reachers_this_turn := tracked.2
  let all_at_end := data.tile_numbers.all (fun p => decide (win_tile ≤ p.2))
  if all_at_end then
    if data.game_ended then ({ gs with data := data }, (none, true))
    else
      let data := { data with game_ended := true }
      -- python computes earliest_turn only when goal_reached_turn is non-empty;
      -- in the empty fallback the later message interpolation would raise, and
      -- that branch is unreachable once any participant has a tile
      let earliest_turn := pyMinNat (data.goal_reached_turn.map (fun p => p.2))
      let data :=
        if data.goal_reached_turn ≠ [] then
          { data with winners :=
              (data.goal_reached_turn.filter (fun p => p.2 = earliest_turn)).map (fun p => p.1) }
        else
          { data with winners := data.tile_numbers.map (fun p => p.1) }
      let winners := data.winners
      let winner_mentions := winners.map (winner_mention gs data)
      let first_mention := winner_mentions.headD ""
      let all_player_names := (all_player_ids_sorted data).map (final_result_line gs data)
      let msg :=
        if winners.length = 1 then
          "🎉 **GAME OVER!** 🎉\n" ++
          s!"**🏆 WINNER:** {first_mention}\n" ++
          "**All players have reached the end!**\n" ++
          "**Final Results:**\n" ++ String.intercalate "\n" all_player_names
        else
          "🎉 **GAME OVER!** 🎉\n" ++
          s!"**🏆 WINNERS (Tied on Turn {earliest_turn}):** " ++
          String.intercalate ", " winner_mentions ++ "\n" ++
          "**All players have reached the end!**\n" ++
          "**Final Results:**\n" ++ String.intercalate "\n" all_player_names
      ({ gs with data := data }, (some msg, true))
  else
    if new_goal_reachers_this_turn ≠ [] then
      let winner_mentions := new_goal_reachers_this_turn.map (reacher_mention gs)
      let first_mention := winner_mentions.headD ""
      if new_goal_reachers_this_turn.length = 1 then
        ({ gs with data := data },
         (some (s!"🎉 {first_mention} reached the goal (tile {win_tile}) " ++
                s!"on turn {current_turn}! They cannot roll dice anymore, " ++
                "but the game continues for others."), false))
      else
        ({ gs with data := data },
         (some ("🎉 **WINNERS!** 🎉\n" ++ String.intercalate ", " winner_mentions ++
                s!" have all reached tile {win_tile} on turn {current_turn}! " ++
                "They cannot roll dice anymore, but the game continues for others."), false))
    else ({ gs with data := data }, (none, false))

/-- The movement half of `on_dice_rolled` (lines 283-406 of the pack),
reached once every rejection gate has passed: clamp `current + roll` to
the goal tile, apply at most one snake/ladder redirection (the `elif`
chain never re-examines the redirect target), refresh the grid
coordinate, record the roll, recompute turn completion and run
`check_win_condition`.  The message is kept as its `message_parts`
list; `on_dice_rolled` joins it with `"\n"` exactly as the source
does. -/
def roll_and_move (gs : SLState) (player_id : Nat) (dice_result : Int)
    (cfg : GameConfig) : SLState × (Option (List String) × Bool × Option String × Bool) :=
  let data := gs.data
  let win_tile := cfg.win_tile
  let current_tile := (alistGet data.tile_numbers player_id).getD 1
  let tentative := current_tile + dice_result
  let new_tile := if win_tile ≤ tentative then win_tile else tentative
  -- move player and update grid position
  let data := { data with tile_numbers := alistSet data.tile_numbers player_id new_tile }
  let players := set_grid_position gs.players player_id (tile_number_to_alphanumeric new_tile cfg)
  -- snakes and ladders (checked on the clamped tile, a single redirection)
  let redirected : PackData × List (Nat × GamePlayer) × Int × List String :=
    match intGet cfg.snakes new_tile with
    | some tail_tile =>
      ({ data with tile_numbers := alistSet data.tile_numbers player_id tail_tile },
       set_grid_position players player_id (tile_number_to_alphanumeric tail_tile cfg),
       tail_tile, [s!"🐍 Snake! Slid down to tile {tail_tile}"])
    | none =>
      match intGet cfg.ladders new_tile with
      | some top_tile =>
        ({ data with tile_numbers := alistSet data.tile_numbers player_id top_tile },
         set_grid_position players player_id (tile_number_to_alphanumeric top_tile cfg),
         top_tile, [s!"🪜 Ladder! Climbed up to tile {top_tile}"])
      | none => (data, players, new_tile, [])
  let data := redirected.1
  let players := redirected.2.1
  let final_tile := redirected.2.2.1
  let color_part : List String :=
    if 2 ≤ final_tile ∧ final_tile ≤ 99 then (get_tile_color_info final_tile cfg).toList
    else []
  let message_parts := [s!"Moved to tile {new_tile}"] ++ redirected.2.2.2 ++ color_part
  -- mark player as having rolled this turn
  let data :=
    if player_id ∈ data.players_rolled_this_turn then data
    else { data with players_rolled_this_turn := data.players_rolled_this_turn ++ [player_id] }
  -- turn completion over the active players, on the updated positions
  let is_turn_complete :=
    if data.turn_order ≠ [] then
      let active_players := data.turn_order.filter (fun uid =>
        (alistGet players uid).isSome &&
        !decide (uid ∈ data.forfeited_players) &&
        decide ((alistGet data.tile_numbers uid).getD 1 < win_tile))
      let active_players_rolled := data.players_rolled_this_turn.filter
        (fun uid => decide (uid ∈ active_players))
      if active_players ≠ [] then active_players.length ≤ active_players_rolled.length
      else true
    else false
  -- win check on the updated state, storing the game_ended flag
  let checked := check_win_condition { gs with players := players, data := data } cfg
  let gs1 := checked.1
  let win_msg := checked.2.1
  let game_ended := checked.2.2
  let message_parts := message_parts ++ win_msg.toList
  ({ gs1 with data := { gs1.data with game_ended := game_ended } },
   (some message_parts, true, none, is_turn_complete))

/-- Embedding of `on_dice_rolled` from `games/packs/snakes_ladders.py`,
with the response message kept as its `message_parts` list (the source
returns `"\n".join(message_parts)`; `on_dice_rolled` below applies the
join).  The rejection gates run in source order: already won, forfeited,
at the goal, already rolled, and then the turn-order eligibility scan. -/
def on_dice_rolled_parts (gs : SLState) (player_id : Nat) (dice_result : Int)
    (cfg : GameConfig) : SLState × (Option (List String) × Bool × Option String × Bool) :=
  let data := gs.data
  let win_tile := cfg.win_tile
  if player_id ∈ data.winners then
    (gs, (some ["🎉 You\x27ve already won! You cannot roll dice anymore. The game continues for other players."],
          false, none, false))
  else if player_id ∈ data.forfeited_players then
    (gs, (some ["😔 You\x27ve forfeited! You cannot roll dice anymore. The game continues for other players."],
          false, none, false))
  else if win_tile ≤ (alistGet data.tile_numbers player_id).getD 1 then
    (gs, (some [s!"🎉 You\x27ve reached the goal (tile {win_tile})! You cannot roll dice anymore. The game continues for other players."],
          false, none, false))
  else if player_id ∈ data.players_rolled_this_turn then
    (gs, (some ["You\x27ve already rolled this turn! Wait for the turn summary."],
          false, none, false))
  else if data.turn_order ≠ [] then
    match next_player_to_roll gs win_tile with
    | none =>
      (gs, (some ["All players have rolled! Turn summary should be shown."], false, none, true))
    | some next_player_id =>
      if player_id ≠ next_player_id then
        let next_player_num := numOrQ (alistGet data.player_numbers next_player_id)
        let next_player_name :=
          match alistGet gs.players next_player_id with
          | some p => p.character_name.getD s!"Player {next_player_num}"
          | none => s!"Player {next_player_num}"
        (gs, (some [s!"It\x27s not your turn yet! Waiting for Player {next_player_num} ({next_player_name}) to roll."],
              false, none, false))
      else roll_and_move gs player_id dice_result cfg
  else roll_and_move gs player_id dice_result cfg

/-- `on_dice_rolled`, with the response message joined with `"\n"` as in
the source's final `return`. -/
def on_dice_rolled (gs : SLState) (player_id : Nat) (dice_result : Int)
    (cfg : GameConfig) : SLState × (Option String × Bool × Option String × Bool) :=
  let r := on_dice_rolled_parts gs player_id dice_result cfg
  (r.1, (r.2.1.map (String.intercalate "\n"), r.2.2.1, r.2.2.2.1, r.2.2.2.2))

/-- Embedding of the pack-data mutation performed by `command_gamequit`
in `tfbot/games.py` for a participant who is in the game: preserve the
grid position, add to `forfeited_players`, remove from `winners`,
`players_rolled_this_turn` and `players_reached_end_this_turn`, and
delete the character metadata and `goal_reached_turn` entries.  The
participant map, `turn_order`, `player_numbers` and `tile_numbers` are
deliberately left untouched by the source. -/
def command_gamequit_data (data : PackData) (uid : Nat) (grid_position : String) : PackData :=
  let data :=
    { data with removed_player_positions := alistSet data.removed_player_positions uid grid_position }
  let data :=
    if uid ∈ data.forfeited_players then data
    else { data with forfeited_players := data.forfeited_players ++ [uid] }
  let data := { data with winners := data.winners.erase uid }
  let data := { data with players_rolled_this_turn := data.players_rolled_this_turn.erase uid }
  let data := { data with
    original_characters := alistErase data.original_characters uid,
    real_body_characters := alistErase data.real_body_characters uid,
    transformation_counts := alistErase data.transformation_counts uid,
    mind_changed := alistErase data.mind_changed uid,
    goal_reached_turn := alistErase data.goal_reached_turn uid }
  { data with players_reached_end_this_turn := data.players_reached_end_this_turn.erase uid }

/-- Embedding of the fields of `TransformationState` (from
`tfbot/models.py`, declared outside `src/` but fully determined by the
constructor calls in `tfbot/games.py`). -/
structure TransformationState where
  user_id : Nat
  guild_id : Nat := 0
  character_name : Option String := none
  character_folder : Option String := none
  character_avatar_path : Option String := none
  character_message : Option String := none
  original_nick : Option String := none
  started_at : Nat := 0
  expires_at : Option Nat := none
  duration_label : Option String := none
  avatar_applied : Bool := false
  original_display_name : Option String := none
  is_inanimate : Bool := false
  inanimate_responses : List String := []
  form_owner_user_id : Option Nat := none
  identity_display_name : Option String := none
  is_pillow : Bool := false
deriving Repr, DecidableEq

/-- The slice of `GameState` the swap coordinator touches: the
participant map, the per-participant transformation states and the pack
data. -/
structure SwapState where
  players : List (Nat × GamePlayer) := []
  player_states : List (Nat × TransformationState) := []
  data : PackData := {}
deriving Repr, DecidableEq

/-- Python `x or y` on an optional id (`state.form_owner_user_id or
member.id`): `0` and `None` are falsy. -/
def pyOrNat (x : Option Nat) (y : Nat) : Nat :=
  match x with
  | some v => if v = 0 then y else v
  | none => y

/-- Python `x or y` on optional strings (`state.identity_display_name or
state.character_name`): `None` and `""` are falsy. -/
def pyOrStr (x y : Option String) : Option String :=
  match x with
  | some s => if s = "" then y else some s
  | none => y

/-- Embedding of `on_character_assigned` from the pack: records the
first character ever assigned to the participant. -/
def on_character_assigned (data : PackData) (uid : Nat)
    (character_name : Option String) : PackData :=
  match alistGet data.original_characters uid with
  | some (some _) => data
  | _ => { data with original_characters := alistSet data.original_characters uid character_name }

/-- The `_swap_dict_entry` helper of `_swap_pack_player_metadata`:
exchange the two participants' values, treating a missing key as `None`
(which is then written back into the dictionary). -/
def swap_dict_entry {α : Type} [DecidableEq α] (m : List (Nat × Option α)) (u1 u2 : Nat) :
    List (Nat × Option α) :=
  let val1 := (alistGet m u1).getD none
  let val2 := (alistGet m u2).getD none
  if val1 = none ∧ val2 = none then m
  else alistSet (alistSet m u1 val2) u2 val1

/-- Embedding of `_swap_pack_player_metadata` from `tfbot/games.py`:
swaps only the character-tied metadata dictionaries; `player_numbers`,
`turn_order`, the rolled/winner lists and `goal_reached_turn` are
deliberately not swapped (they are commented out in the source). -/
def swap_pack_player_metadata (data : PackData) (u1 u2 : Nat) : PackData :=
  { data with
    original_characters := swap_dict_entry data.original_characters u1 u2,
    real_body_characters := swap_dict_entry data.real_body_characters u1 u2,
    transformation_counts := swap_dict_entry data.transformation_counts u1 u2,
    mind_changed := swap_dict_entry data.mind_changed u1 u2 }

/-- The `tile_numbers` exchange both `command_swap` and
`_revert_swap_direct` perform when both participants have a recorded
tile. -/
def swap_tile_numbers (data : PackData) (u1 u2 : Nat) : PackData :=
  match alistGet data.tile_numbers u1, alistGet data.tile_numbers u2 with
  | some tile1, some tile2 =>
    { data with tile_numbers := alistSet (alistSet data.tile_numbers u1 tile2) u2 tile1 }
  | _, _ => data

/-- Embedding of the state mutation of `command_swap` (`!swap`) in
`tfbot/games.py`, for two participants present in the game: exchange
character, grid position, background and outfit on the `GamePlayer`
records, rebuild the two `TransformationState`s with the character data
exchanged and `form_owner_user_id` cross-linked, exchange
`tile_numbers`, swap the character-tied pack metadata and notify the
pack of the two assignments.  Board rendering, saving and replies are
transport side effects outside the state. -/
def command_swap_apply (gs : SwapState) (u1 u2 : Nat) : SwapState :=
  match alistGet gs.players u1, alistGet gs.players u2 with
  | some player1, some player2 =>
    let char1 := player1.character_name
    let char2 := player2.character_name
    let player1 := { player1 with character_name := char2 }
    let player2 := { player2 with character_name := char1 }
    let pos1 := player1.grid_position
    let pos2 := player2.grid_position
    let player1 := { player1 with grid_position := pos2 }
    let player2 := { player2 with grid_position := pos1 }
    let bg1 := player1.background_id
    let bg2 := player2.background_id
    let player1 := { player1 with background_id := bg2 }
    let player2 := { player2 with background_id := bg1 }
    let outfit1 := player1.outfit_name
    let outfit2 := player2.outfit_name
    let player1 := { player1 with outfit_name := outfit2 }
    let player2 := { player2 with outfit_name := outfit1 }
    let players := alistSet (alistSet gs.players u1 player1) u2 player2
    let player_states :=
      match alistGet gs.player_states u1, alistGet gs.player_states u2 with
      | some state1, some state2 =>
        let identity1 := pyOrStr state1.identity_display_name state1.character_name
        let identity2 := pyOrStr state2.identity_display_name state2.character_name
        let new_state1 : TransformationState :=
          { user_id := u1
            guild_id := state1.guild_id
            character_name := state2.character_name
            character_folder := state2.character_folder
            character_avatar_path := state2.character_avatar_path
            character_message := state2.character_message
            original_nick := state1.original_nick
            started_at := state1.started_at
            expires_at := state1.expires_at
            duration_label := state1.duration_label
            avatar_applied := state1.avatar_applied
            original_display_name := state1.original_display_name
            is_inanimate := state2.is_inanimate
            inanimate_responses := state2.inanimate_responses
            form_owner_user_id := some (pyOrNat state2.form_owner_user_id u2)
            identity_display_name := identity1
            is_pillow := state1.is_pillow }
        let new_state2 : TransformationState :=
          { user_id := u2
            guild_id := state2.guild_id
            character_name := state1.character_name
            character_folder := state1.character_folder
            character_avatar_path := state1.character_avatar_path
            character_message := state1.character_message
            original_nick := state2.original_nick
            started_at := state2.started_at
            expires_at := state2.expires_at
            duration_label := state2.duration_label
            avatar_applied := state2.avatar_applied
            original_display_name := state2.original_display_name
            is_inanimate := state1.is_inanimate
            inanimate_responses := state1.inanimate_responses
            form_owner_user_id := some (pyOrNat state1.form_owner_user_id u1)
            identity_display_name := identity2
            is_pillow := state2.is_pillow }
        alistSet (alistSet gs.player_states u1 new_state1) u2 new_state2
      | _, _ => gs.player_states
    let data := swap_tile_numbers gs.data u1 u2
    let data := swap_pack_player_metadata data u1 u2
    let data := on_character_assigned data u1 char2
    let data := on_character_assigned data u2 char1
    { players := players, player_states := player_states, data := data }
  | _, _ => gs

/-- The loop body of `_build_swap_chain`, with explicit fuel: each
iteration adds the current id to `visited` and only continues through an
id that has a transformation state, so the loop runs at most
`|player_states| + 1` times and the fuel below never runs out. -/
def build_swap_chain_go (gs : SwapState) :
    Nat → List Nat → Nat → List (Nat × Nat) → List (Nat × Nat)
  | 0, _, _, chain => chain
  | fuel + 1, visited, current_id, chain =>
    if current_id = 0 ∨ current_id ∈ visited then chain
    else
      let visited := current_id :: visited
      match alistGet gs.player_states current_id with
      | none => chain
      | some state =>
        match state.form_owner_user_id with
        | none => chain
        | some other_id =>
          if other_id = 0 then chain
          else if other_id = current_id then chain
          else
            let chain :=
              if (current_id, other_id) ∈ chain ∨ (other_id, current_id) ∈ chain then chain
              else chain ++ [(current_id, other_id)]
            build_swap_chain_go gs fuel visited other_id chain

/-- Embedding of `_build_swap_chain` from `tfbot/games.py`: follow
`form_owner_user_id` back-references from the start id, collecting the
swap pairs, stopping at asymmetric ends, self-loops and visited ids. -/
def build_swap_chain (gs : SwapState) (start_user_id : Nat) : List (Nat × Nat) :=
  build_swap_chain_go gs (gs.player_states.length + 1) [] start_user_id []

/-- Embedding of `_revert_swap_direct` from `tfbot/games.py`: exchange
character, grid position and background on the `GamePlayer` records
(the source does not touch `outfit_name` here), rebuild both
transformation states with the character data exchanged and
`form_owner_user_id` reset to the participant's own id, exchange
`tile_numbers`, swap the character-tied pack metadata and notify the
pack of the two assignments. -/
def revert_swap_direct (gs : SwapState) (u1 u2 : Nat) : SwapState :=
  match alistGet gs.players u1, alistGet gs.players u2,
        alistGet gs.player_states u1, alistGet gs.player_states u2 with
  | some player1, some player2, some state1, some state2 =>
    let char1 := player1.character_name
    let char2 := player2.character_name
    let player1 := { player1 with character_name := char2 }
    let player2 := { player2 with character_name := char1 }
    let pos1 := player1.grid_position
    let pos2 := player2.grid_position
    let player1 := { player1 with grid_position := pos2 }
    let player2 := { player2 with grid_position := pos1 }
    let bg1 := player1.background_id
    let bg2 := player2.background_id
    let player1 := { player1 with background_id := bg2 }
    let player2 := { player2 with background_id := bg1 }
    let players := alistSet (alistSet gs.players u1 player1) u2 player2
    let identity1 := pyOrStr state1.identity_display_name state1.character_name
    let identity2 := pyOrStr state2.identity_display_name state2.character_name
    let new_state1 : TransformationState :=
      { user_id := u1
        guild_id := state1.guild_id
        character_name := state2.character_name
        character_folder := state2.character_folder
        character_avatar_path := state2.character_avatar_path
        character_message := state2.character_message
        original_nick := state1.original_nick
        started_at := state1.started_at
        expires_at := state1.expires_at
        duration_label := state1.duration_label
        avatar_applied := state1.avatar_applied
        original_display_name := state1.original_display_name
        is_inanimate := state2.is_inanimate
        inanimate_responses := state2.inanimate_responses
        form_owner_user_id := some u1
        identity_display_name := identity1
        is_pillow := state1.is_pillow }
    let new_state2 : TransformationState :=
      { user_id := u2
        guild_id := state2.guild_id
        character_name := state1.character_name
        character_folder := state1.character_folder
        character_avatar_path := state1.character_avatar_path
        character_message := state1.character_message
        original_nick := state2.original_nick
        started_at := state2.started_at
        expires_at := state2.expires_at
        duration_label := state2.duration_label
        avatar_applied := state2.avatar_applied
        original_display_name := state2.original_display_name
        is_inanimate := state1.is_inanimate
        inanimate_responses := state1.inanimate_responses
        form_owner_user_id := some u2
        identity_display_name := identity2
        is_pillow := state2.is_pillow }
    let player_states := alistSet (alistSet gs.player_states u1 new_state1) u2 new_state2
    let data := swap_tile_numbers gs.data u1 u2
    let data := swap_pack_player_metadata data u1 u2
    let data := on_character_assigned data u1 char2
    let data := on_character_assigned data u2 char1
    { players := players, player_states := player_states, data := data }
  | _, _, _, _ => gs

/-- Embedding of `_revert_swap_chain` from `tfbot/games.py`: revert the
collected swap pairs in reverse order. -/
def revert_swap_chain (gs : SwapState) (swap_chain : List (Nat × Nat)) : SwapState :=
  swap_chain.reverse.foldl (fun g p => revert_swap_direct g p.1 p.2) gs

/-- Captured attachment payload: filename, fully-read bytes and content
type (`attachment_data` entries of `tfbot/games.py`). -/
structure AttachmentData where
  filename : String
  bytes : List Nat
  content_type : Option String := none
deriving Repr, DecidableEq

/-- An inbound chat event as seen by `handle_message`: author, text
content and binary attachments.  Stickers and embed images are captured
by the same download-and-validate pattern and are elided here. -/
structure InboundMessage where
  id : Nat
  author_id : Nat
  author_is_bot : Bool := false
  content : String := ""
  attachments : List AttachmentData := []
deriving Repr, DecidableEq

/-- The `message_data` dictionary queued for replay. -/
structure QueuedMessageData where
  id : Nat
  author_id : Nat
  content : String
  attachments : List AttachmentData
deriving Repr, DecidableEq

/-- The capture step of `handle_message` (lines 1289-1318 of
`tfbot/games.py`) when the session lock is held: every attachment is
read to completion, an attachment whose bytes are empty is skipped with
an error log (`cannot queue!`), and the message data is built from the
remaining attachments.  Returns the queued snapshot and the number of
logged empty-payload drops. -/
def handle_message_capture (m : InboundMessage) : QueuedMessageData × Nat :=
  (⟨m.id, m.author_id, m.content, m.attachments.filter (fun a => a.bytes ≠ [])⟩,
   (m.attachments.filter (fun a => a.bytes = [])).length)

/-- The capture step of `_cache_and_delete_message` (lines 3084-3095 of
`tfbot/games.py`): attachments are read to completion and stored as-is
(this path has no emptiness check). -/
def cache_and_delete_capture (m : InboundMessage) : QueuedMessageData :=
  ⟨m.id, m.author_id, m.content, m.attachments⟩

/-- The `QueuedMessage` reconstruction inside `_process_queued_messages`
(lines 3800-3847 of `tfbot/games.py`): an attachment whose stored bytes
are empty is skipped with an error log instead of becoming an
`AttachmentProxy`.  Returns the reconstructed message and the number of
logged empty-payload drops. -/
def reconstruct_queued_message (q : QueuedMessageData) : QueuedMessageData × Nat :=
  (⟨q.id, q.author_id, q.content, q.attachments.filter (fun a => a.bytes ≠ [])⟩,
   (q.attachments.filter (fun a => a.bytes = [])).length)

/-- Per-session serializer state: whether the session's command lock is
held, and the FIFO replay queue (`self._message_queues[thread_id]`). -/
structure SerializerState where
  locked : Bool := false
  queue : List QueuedMessageData := []
deriving Repr, DecidableEq

/-- The interception step of `handle_message` for one inbound event: a
non-bot event arriving while the lock is held is captured, deleted from
the transport, and appended to the session's FIFO queue (the function
returns `True` immediately); otherwise the event falls through to
normal dispatch.  The Bool records whether the event was queued. -/
def handle_message_queue_step (s : SerializerState) (m : InboundMessage) :
    SerializerState × Bool :=
  if !m.author_is_bot && s.locked then
    ({ s with queue := s.queue ++ [(handle_message_capture m).1] }, true)
  else (s, false)

/-- Embedding of `_process_queued_messages` from `tfbot/games.py`: copy
the session's queue, clear it immediately to prevent duplicates, and
dispatch each reconstructed message in order through `handle_message`
with `is_queued=True`; if the lock is (unexpectedly) still held every
replay is skipped and logged instead.  Returns the new serializer state
and the ordered list of replay dispatches. -/
def process_queued_messages (s : SerializerState) :
    SerializerState × List QueuedMessageData :=
  let messages_to_process := s.queue
  let s := { s with queue := [] }
  if s.locked then (s, [])
  else (s, messages_to_process.map (fun q => (reconstruct_queued_message q).1))

/-- Phase of one in-flight command coroutine with respect to its
session's `asyncio.Lock`: before `async with`, inside the critical
section, or finished. -/
inductive Phase where
  | waiting
  | critical
  | done
deriving Repr, DecidableEq

/-- One command coroutine (`_execute_gameboard_command` or the locked
section of `command_dice`) bound to its session's thread id. -/
structure LockTask where
  session : Nat
  phase : Phase
deriving Repr, DecidableEq

/-- The event-loop view of the lock protocol: the in-flight command
coroutines and the set of sessions whose command lock is currently
held. -/
structure LockSystem where
  tasks : List LockTask
  locks : List Nat
deriving Repr, DecidableEq

/-- Number of coroutines currently inside session `sid`'s critical
section. -/
def critCount (σ : LockSystem) (sid : Nat) : Nat :=
  σ.tasks.countP (fun t => t.session == sid && t.phase == Phase.critical)

/-- The cooperative event-loop transition relation of the per-session
`asyncio.Lock` protocol in `tfbot/games.py`: a waiting coroutine may
enter its session's critical section only when that session's lock is
free (`async with command_lock` in `_execute_gameboard_command` and
`command_dice`), and a coroutine in its critical section may finish,
releasing the lock.  Game-state mutation happens only in the critical
phase. -/
inductive LockStep : LockSystem → LockSystem → Prop where
  | acquire (σ : LockSystem) (i : Nat) (t : LockTask)
      (hget : σ.tasks.get? i = some t) (hw : t.phase = Phase.waiting)
      (hfree : t.session ∉ σ.locks) :
      LockStep σ ⟨σ.tasks.set i { t with phase := Phase.critical }, t.session :: σ.locks⟩
  | release (σ : LockSystem) (i : Nat) (t : LockTask)
      (hget : σ.tasks.get? i = some t) (hc : t.phase = Phase.critical) :
      LockStep σ ⟨σ.tasks.set i { t with phase := Phase.done }, σ.locks.erase t.session⟩

/-- A lock-protocol state reachable from an initial state. -/
def LockReachable (init σ : LockSystem) : Prop :=
  Relation.ReflTransGen LockStep init σ

/-- The lock-protocol safety invariant: a session whose lock is free has
no coroutine in its critical section, and no session ever has two. -/
def LockInv (σ : LockSystem) : Prop :=
  ∀ sid, (sid ∉ σ.locks → critCount σ sid = 0) ∧ critCount σ sid ≤ 1

/-- The clamped movement target of §4.2 of the spec
(`new_tile = current_tile + r`, capped at the goal tile), stated for
comparison with `roll_and_move`. -/
def clamped_tile (data : PackData) (player_id : Nat) (dice_result : Int) (win_tile : Int) : Int :=
  let current_tile := (alistGet data.tile_numbers player_id).getD 1
  let tentative := current_tile + dice_result
  if win_tile ≤ tentative then win_tile else tentative

/-- A single snake/ladder redirection of the landed tile (redirections
do not chain: the redirect target is never re-examined), stated for
comparison with `roll_and_move`. -/
def single_redirect (cfg : GameConfig) (tile : Int) : Int :=
  match intGet cfg.snakes tile with
  | some tail_tile => tail_tile
  | none =>
    match intGet cfg.ladders tile with
    | some top_tile => top_tile
    | none => tile

/-- The spec's eligibility scan (§4.2), stated from the spec's words for
comparison with `next_player_to_roll`: the first turn-list entry that is
not forfeited, has not acted this cycle, and has not reached the goal
tile.  (`next_player_to_roll`, from the source, additionally skips ids
missing from the participant map.) -/
def spec_next_player (data : PackData) (win_tile : Int) : Option Nat :=
  data.turn_order.find? (fun user_id =>
    !decide (user_id ∈ data.players_rolled_this_turn) &&
    !decide (user_id ∈ data.forfeited_players) &&
    decide ((alistGet data.tile_numbers user_id).getD 1 < win_tile))

/-- The spec's worked example configuration: 10x10 grid, goal tile 100,
hazard 16 -> 6. -/
def cfgC3 : GameConfig := { snakes := [(16, 6)] }

/-- A two-participant game: participant 7 at tile 10 is next to roll,
participant 8 at tile 1 must wait. -/
def gsC3 : SLState :=
  { players := [(7, { user_id := 7, character_name := some "Alice", grid_position := "J1" }),
                (8, { user_id := 8, character_name := some "Beth", grid_position := "A1" })],
    turn_count := 0,
    data := { tile_numbers := [(7, 10), (8, 1)], turn_order := [7, 8],
              player_numbers := [(7, 1), (8, 2)] } }

/-- A finished three-participant game: participants 1 and 2 first
reached the goal on turn 5, participant 3 on turn 7. -/
def gsC2 : SLState :=
  { players := [],
    turn_count := 9,
    data := { tile_numbers := [(1, 100), (2, 100), (3, 100)],
              goal_reached_turn := [(1, 5), (2, 5), (3, 7)],
              turn_order := [1, 2, 3],
              player_numbers := [(1, 1), (2, 2), (3, 3)] } }

/-- A game where participant 1 has already won (tile 100, stamped
turn 3, transformation count 2) and participant 2 is still at tile
50: the scenario for the forfeit claims. -/
def gsC5 : SLState :=
  { players := [],
    turn_count := 4,
    data := { tile_numbers := [(1, 100), (2, 50)],
              turn_order := [1, 2],
              player_numbers := [(1, 1), (2, 2)],
              winners := [1],
              goal_reached_turn := [(1, 3)],
              transformation_counts := [(1, some 2), (2, some 0)] } }

/-- Two participants with distinct roles, coordinates, backgrounds and
outfits, not currently swapped: the scenario for the swap claims. -/
def gsC6 : SwapState :=
  { players := [(1, { user_id := 1, character_name := some "Alice", grid_position := "A1",
                      background_id := some 10, outfit_name := some "dress" }),
                (2, { user_id := 2, character_name := some "Bob", grid_position := "B2",
                      background_id := some 20, outfit_name := some "suit" })],
    player_states := [(1, { user_id := 1, guild_id := 5, character_name := some "Alice",
                            form_owner_user_id := some 1 }),
                      (2, { user_id := 2, guild_id := 5, character_name := some "Bob",
                            form_owner_user_id := some 2 })],
    data := { tile_numbers := [(1, 10), (2, 20)] } }

/-- A generic two-participant swap scenario: arbitrary player records,
transformation states, pack data and tiles for participants 1 and 2. -/
def gsC6gen (p1 p2 : GamePlayer) (s1 s2 : TransformationState) (d0 : PackData)
    (t1 t2 : Int) : SwapState :=
  { players := [(1, p1), (2, p2)], player_states := [(1, s1), (2, s2)],
    data := { d0 with tile_numbers := [(1, t1), (2, t2)] } }

end TFBot

open TFBot

/-- C10: `tile_number_to_alphanumeric` is total: it returns a coordinate
string exactly for tile numbers in `1..rows*cols`, and `none` (never an
error) for every tile number outside that range. -/
theorem tile_to_alphanumeric_total (cfg : GameConfig) (t : Int) :
    (tile_number_to_alphanumeric t cfg).isSome ↔
      (1 ≤ t ∧ t ≤ (cfg.rows : Int) * (cfg.cols : Int)) := by
  unfold tile_number_to_alphanumeric
  split
  · rename_i h
    simp only [Option.isSome_none, Bool.false_eq_true, false_iff, not_and, not_le]
    intro h1
    omega
  · rename_i h
    dsimp only
    split
    · rename_i h2
      simp only [Option.isSome_none, Bool.false_eq_true, false_iff, not_and, not_le]
      intro h1
      omega
    · rename_i h2
      simp only [Option.isSome_some, true_iff]
      constructor <;> omega

/-- C7: on the default 10x10 grid the two coordinate conversions are
mutually inverse on the whole valid range: converting any tile number
`1..100` to its alphanumeric coordinate and back yields the original
tile, and converting any coordinate `A1..J10` to a tile number and back
yields the original coordinate. -/
theorem tile_alphanumeric_roundtrip :
    (∀ i : Fin 100,
      (tile_number_to_alphanumeric ((i : Nat) + 1 : Int) cfg10).bind
          (fun s => alphanumeric_to_tile_number s cfg10) =
        some ((i : Nat) + 1 : Int)) ∧
    (∀ c r : Fin 10,
      ((alphanumeric_to_tile_number
            (String.mk [Char.ofNat ('A'.toNat + (c : Nat))] ++ toString ((r : Nat) + 1))
            cfg10).bind
          (fun t => tile_number_to_alphanumeric t cfg10)) =
        some (String.mk [Char.ofNat ('A'.toNat + (c : Nat))] ++ toString ((r : Nat) + 1))) := by
  constructor
  · decide
  · decide

/-- Helper: folding the locked-window interception step over a sequence
of non-bot events appends their captures to the queue in arrival
order. -/
theorem queue_fold_appends (ms : List InboundMessage) (q : List QueuedMessageData)
    (hbot : ∀ m ∈ ms, m.author_is_bot = false) :
    ms.foldl (fun s m => (handle_message_queue_step s m).1) ⟨true, q⟩ =
      ⟨true, q ++ ms.map (fun m => (handle_message_capture m).1)⟩ := by
  induction ms generalizing q with
  | nil => simp
  | cons m ms ih =>
    have hm : m.author_is_bot = false := hbot m (by simp)
    have hrest : ∀ x ∈ ms, x.author_is_bot = false := fun x hx => hbot x (by simp [hx])
    simp only [List.foldl_cons, List.map_cons]
    rw [show (handle_message_queue_step ⟨true, q⟩ m).1 =
          ⟨true, q ++ [(handle_message_capture m).1]⟩ by
        simp [handle_message_queue_step, hm]]
    rw [ih (q ++ [(handle_message_capture m).1]) hrest]
    simp

/-- C1: every non-bot event arriving while the session's lock is held is
captured and appended to the session's FIFO queue; once the
lock-protected operation completes, draining replays the captured
events through the normal dispatch entry point in exactly their
original arrival order, and clears the queue so each captured event is
replayed at most once. -/
theorem locked_window_events_replayed_in_order (ms : List InboundMessage)
    (hbot : ∀ m ∈ ms, m.author_is_bot = false) :
    (ms.foldl (fun s m => (handle_message_queue_step s m).1) ⟨true, []⟩).queue =
        ms.map (fun m => (handle_message_capture m).1) ∧
    (process_queued_messages
        ⟨false, (ms.foldl (fun s m => (handle_message_queue_step s m).1) ⟨true, []⟩).queue⟩).2 =
      (ms.map (fun m => (handle_message_capture m).1)).map
        (fun q => (reconstruct_queued_message q).1) ∧
    (process_queued_messages
        ⟨false, (ms.foldl (fun s m => (handle_message_queue_step s m).1) ⟨true, []⟩).queue⟩).1.queue
      = [] := by
  have hfold := queue_fold_appends ms [] hbot
  rw [hfold]
  refine ⟨by simp, ?_, ?_⟩
  · simp [process_queued_messages]
  · simp [process_queued_messages]

/-- Witness for C1 at a concrete two-event arrival sequence. -/
theorem locked_window_events_replayed_in_order_witness :
    (([⟨10, 7, false, "hi", []⟩, ⟨11, 8, false, "yo", [⟨"a.png", [1, 2], none⟩]⟩] :
        List InboundMessage).foldl
        (fun s m => (handle_message_queue_step s m).1) ⟨true, []⟩).queue =
      [⟨10, 7, "hi", []⟩, ⟨11, 8, "yo", [⟨"a.png", [1, 2], none⟩]⟩] ∧
    (process_queued_messages
        ⟨false, [⟨10, 7, "hi", []⟩, ⟨11, 8, "yo", [⟨"a.png", [1, 2], none⟩]⟩]⟩).2 =
      [⟨10, 7, "hi", []⟩, ⟨11, 8, "yo", [⟨"a.png", [1, 2], none⟩]⟩] := by
  have h := locked_window_events_replayed_in_order
    [⟨10, 7, false, "hi", []⟩, ⟨11, 8, false, "yo", [⟨"a.png", [1, 2], none⟩]⟩]
    (by intro m hm; fin_cases hm <;> rfl)
  refine ⟨?_, ?_⟩
  · rw [h.1]; rfl
  · have := h.2.1
    rw [show (([⟨10, 7, false, "hi", []⟩, ⟨11, 8, false, "yo", [⟨"a.png", [1, 2], none⟩]⟩] :
        List InboundMessage).foldl
        (fun s m => (handle_message_queue_step s m).1) ⟨true, []⟩).queue =
        [⟨10, 7, "hi", []⟩, ⟨11, 8, "yo", [⟨"a.png", [1, 2], none⟩]⟩] from h.1] at this
    rw [this]; rfl

/-- C9: an attachment captured with zero bytes never reaches the
replayed event — on the `handle_message` capture path it is dropped (and
logged) before queuing, on the `_cache_and_delete_message` path it is
stored but dropped (and logged) at replay reconstruction — the text
content is kept in both cases, and every replayed attachment is one of
the original non-empty payloads, never fabricated. -/
theorem empty_payload_dropped_logged_never_fabricated
    (m : InboundMessage) (a : AttachmentData)
    (ha : a ∈ m.attachments) (hempty : a.bytes = []) :
    (a ∉ (handle_message_capture m).1.attachments ∧
      1 ≤ (handle_message_capture m).2 ∧
      (handle_message_capture m).1.content = m.content) ∧
    (a ∉ (reconstruct_queued_message (cache_and_delete_capture m)).1.attachments ∧
      1 ≤ (reconstruct_queued_message (cache_and_delete_capture m)).2 ∧
      (reconstruct_queued_message (cache_and_delete_capture m)).1.content = m.content) ∧
    (∀ b ∈ (handle_message_capture m).1.attachments, b ∈ m.attachments ∧ b.bytes ≠ []) ∧
    (∀ b ∈ (reconstruct_queued_message (cache_and_delete_capture m)).1.attachments,
      b ∈ m.attachments ∧ b.bytes ≠ []) := by
  refine ⟨⟨?_, ?_, rfl⟩, ⟨?_, ?_, rfl⟩, ?_, ?_⟩
  · intro hmem
    have := (List.mem_filter.mp hmem).2
    simp [hempty] at this
  · have : a ∈ m.attachments.filter (fun x => decide (x.bytes = [])) :=
      List.mem_filter.mpr ⟨ha, by simp [hempty]⟩
    have hpos : 0 < (m.attachments.filter (fun x => decide (x.bytes = []))).length :=
      List.length_pos.mpr (List.ne_nil_of_mem this)
    simpa [handle_message_capture] using hpos
  · intro hmem
    have := (List.mem_filter.mp hmem).2
    simp [hempty] at this
  · have : a ∈ m.attachments.filter (fun x => decide (x.bytes = [])) :=
      List.mem_filter.mpr ⟨ha, by simp [hempty]⟩
    have hpos : 0 < (m.attachments.filter (fun x => decide (x.bytes = []))).length :=
      List.length_pos.mpr (List.ne_nil_of_mem this)
    simpa [reconstruct_queued_message, cache_and_delete_capture] using hpos
  · intro b hb
    have h := List.mem_filter.mp hb
    exact ⟨h.1, by simpa using h.2⟩
  · intro b hb
    have h := List.mem_filter.mp hb
    exact ⟨h.1, by simpa using h.2⟩

/-- Witness for C9 at a concrete event with one empty and one non-empty
attachment. -/
theorem empty_payload_dropped_logged_never_fabricated_witness :
    (⟨"empty.png", [], none⟩ : AttachmentData) ∈
        ([⟨"empty.png", [], none⟩, ⟨"ok.png", [5], none⟩] : List AttachmentData) ∧
    (handle_message_capture
        ⟨3, 9, false, "text", [⟨"empty.png", [], none⟩, ⟨"ok.png", [5], none⟩]⟩).1.attachments =
      [⟨"ok.png", [5], none⟩] ∧
    (⟨"empty.png", [], none⟩ : AttachmentData) ∉
      (handle_message_capture
        ⟨3, 9, false, "text", [⟨"empty.png", [], none⟩, ⟨"ok.png", [5], none⟩]⟩).1.attachments := by
  have h := empty_payload_dropped_logged_never_fabricated
    ⟨3, 9, false, "text", [⟨"empty.png", [], none⟩, ⟨"ok.png", [5], none⟩]⟩
    ⟨"empty.png", [], none⟩ (by simp) rfl
  exact ⟨by simp, rfl, h.1.1⟩

/-- Helper: how `countP` changes when one list entry is replaced. -/
theorem countP_set_add (l : List LockTask) (i : Nat) (t v : LockTask)
    (p : LockTask → Bool) (h : l.get? i = some t) :
    (l.set i v).countP p + (if p t then 1 else 0) =
      l.countP p + (if p v then 1 else 0) := by
  induction l generalizing i with
  | nil => simp at h
  | cons a l ih =>
    cases i with
    | zero =>
      simp only [List.get?] at h
      cases h
      simp [List.countP_cons]
      omega
    | succ i =>
      simp only [List.get?] at h
      have := ih i h
      simp [List.countP_cons]
      omega

/-- Helper: the lock-protocol invariant holds in any initial state with
all coroutines waiting and all locks free. -/
theorem lockInv_init (σ : LockSystem) (_hlocks : σ.locks = [])
    (hwait : ∀ t ∈ σ.tasks, t.phase = Phase.waiting) : LockInv σ := by
  intro sid
  have hzero : critCount σ sid = 0 := by
    unfold critCount
    rw [List.countP_eq_zero]
    intro t ht
    have := hwait t ht
    simp [this]
  exact ⟨fun _ => hzero, by omega⟩

/-- Helper: one step of the lock protocol preserves the invariant. -/
theorem lockInv_step (σ σ' : LockSystem) (hstep : LockStep σ σ') (hinv : LockInv σ) :
    LockInv σ' := by
  cases hstep with
  | acquire i t hget hw hfree =>
    intro sid
    have hcount := countP_set_add σ.tasks i t { t with phase := Phase.critical }
      (fun x => x.session == sid && x.phase == Phase.critical) hget
    by_cases hsid : sid = t.session
    · subst hsid
      simp [hw] at hcount
      have hzero : critCount σ t.session = 0 := (hinv t.session).1 hfree
      unfold critCount at hzero ⊢
      dsimp only
      refine ⟨fun hnot => absurd (List.mem_cons_self _ _) hnot, ?_⟩
      omega
    · have hsid' : ¬ t.session = sid := fun h => hsid h.symm
      simp [hsid'] at hcount
      have ha := (hinv sid).1
      have hb := (hinv sid).2
      unfold critCount at ha hb ⊢
      dsimp only
      constructor
      · intro hnot
        have h2 : sid ∉ σ.locks := fun hcon => hnot (List.mem_cons_of_mem _ hcon)
        have := ha h2
        omega
      · omega
  | release i t hget hc =>
    intro sid
    have hcount := countP_set_add σ.tasks i t { t with phase := Phase.done }
      (fun x => x.session == sid && x.phase == Phase.critical) hget
    by_cases hsid : sid = t.session
    · subst hsid
      simp [hc] at hcount
      have hle : critCount σ t.session ≤ 1 := (hinv t.session).2
      unfold critCount at hle ⊢
      dsimp only
      constructor
      · intro _
        omega
      · omega
    · have hsid' : ¬ t.session = sid := fun h => hsid h.symm
      simp [hsid'] at hcount
      have ha := (hinv sid).1
      have hb := (hinv sid).2
      unfold critCount at ha hb ⊢
      dsimp only
      constructor
      · intro hnot
        have h2 : sid ∉ σ.locks := by
          intro hcon
          exact hnot ((List.mem_erase_of_ne (fun h => hsid h)).mpr hcon)
        have := ha h2
        omega
      · omega

/-- C4: in every state of the per-session lock protocol reachable from
an idle start, at most one command coroutine is inside any session's
critical section at any instant, and a coroutine mutating a session
(critical phase) always holds that session's lock — so no two
lock-protected operations on the same session interleave. -/
theorem session_lock_mutual_exclusion (init σ : LockSystem)
    (hlocks : init.locks = [])
    (hwait : ∀ t ∈ init.tasks, t.phase = Phase.waiting)
    (hreach : LockReachable init σ) :
    ∀ sid, critCount σ sid ≤ 1 ∧ (sid ∉ σ.locks → critCount σ sid = 0) := by
  have hinv : LockInv σ := by
    unfold LockReachable at hreach
    induction hreach with
    | refl => exact lockInv_init init hlocks hwait
    | tail _ hstep ih => exact lockInv_step _ _ hstep ih
  intro sid
  exact ⟨(hinv sid).2, (hinv sid).1⟩

/-- Witness for C4: after one coroutine of session 1 acquires the lock
(with a second coroutine of the same session still waiting), exactly one
is in the critical section. -/
theorem session_lock_mutual_exclusion_witness :
    critCount ⟨[⟨1, Phase.critical⟩, ⟨1, Phase.waiting⟩], [1]⟩ 1 ≤ 1 := by
  have hstep : LockStep ⟨[⟨1, Phase.waiting⟩, ⟨1, Phase.waiting⟩], []⟩
      ⟨[⟨1, Phase.critical⟩, ⟨1, Phase.waiting⟩], [1]⟩ :=
    LockStep.acquire ⟨[⟨1, Phase.waiting⟩, ⟨1, Phase.waiting⟩], []⟩ 0 ⟨1, Phase.waiting⟩
      rfl rfl (by simp)
  have h := session_lock_mutual_exclusion
    ⟨[⟨1, Phase.waiting⟩, ⟨1, Phase.waiting⟩], []⟩
    ⟨[⟨1, Phase.critical⟩, ⟨1, Phase.waiting⟩], [1]⟩
    rfl (by intro t ht; fin_cases ht <;> rfl)
    (Relation.ReflTransGen.single hstep)
  exact (h 1).1

/-- Helper: association lookup on an empty list. -/
theorem alistGet_nil {α : Type} (k : Nat) : alistGet ([] : List (Nat × α)) k = none := rfl

/-- Helper: association lookup skips a head with a different key. -/
theorem alistGet_cons_ne {α : Type} (a : Nat × α) (l : List (Nat × α)) (k : Nat)
    (h : ¬ a.1 = k) : alistGet (a :: l) k = alistGet l k := by
  unfold alistGet
  rw [List.find?_cons_of_neg _ (by simp [h])]

/-- Helper: association lookup returns a head with a matching key. -/
theorem alistGet_cons_eq {α : Type} (a : Nat × α) (l : List (Nat × α)) (k : Nat)
    (h : a.1 = k) : alistGet (a :: l) k = some a.2 := by
  unfold alistGet
  rw [List.find?_cons_of_pos _ (by simp [h])]
  rfl

/-- Helper: how `alistSet` unfolds on a cons cell. -/
theorem alistSet_cons {α : Type} (a : Nat × α) (l : List (Nat × α)) (k : Nat) (v : α) :
    alistSet (a :: l) k v =
      if a.1 = k then (k, v) :: l.map (fun p => if p.1 = k then (k, v) else p)
      else a :: alistSet l k v := by
  by_cases ha : a.1 = k
  · simp [alistSet, ha]
  · by_cases hl : l.any (fun p => p.1 = k) <;> simp [alistSet, ha, hl]

/-- Helper: the overwrite map of `alistSet` does not disturb other keys. -/
theorem alistGet_map_overwrite {α : Type} (l : List (Nat × α)) (k k' : Nat) (v : α)
    (h : k' ≠ k) :
    alistGet (l.map (fun p => if p.1 = k then (k, v) else p)) k' = alistGet l k' := by
  induction l with
  | nil => rfl
  | cons a l ih =>
    rw [List.map_cons]
    by_cases ha : a.1 = k
    · rw [show (if a.1 = k then (k, v) else a) = (k, v) by simp [ha]]
      rw [alistGet_cons_ne _ _ _ (by simp; omega),
        alistGet_cons_ne _ _ _ (by simp [ha]; omega)]
      exact ih
    · rw [show (if a.1 = k then (k, v) else a) = a by simp [ha]]
      by_cases ha' : a.1 = k'
      · rw [alistGet_cons_eq _ _ _ ha', alistGet_cons_eq _ _ _ ha']
      · rw [alistGet_cons_ne _ _ _ ha', alistGet_cons_ne _ _ _ ha']
        exact ih

/-- Helper: looking up the key just written returns the written value. -/
theorem alistGet_alistSet_self {α : Type} (m : List (Nat × α)) (k : Nat) (v : α) :
    alistGet (alistSet m k v) k = some v := by
  induction m with
  | nil => simp [alistGet, alistSet]
  | cons a l ih =>
    rw [alistSet_cons]
    by_cases ha : a.1 = k
    · rw [if_pos ha, alistGet_cons_eq _ _ _ rfl]
    · rw [if_neg ha, alistGet_cons_ne _ _ _ ha]
      exact ih

/-- Helper: writing one key leaves every other key lookup unchanged. -/
theorem alistGet_alistSet_ne {α : Type} (m : List (Nat × α)) (k k' : Nat) (v : α)
    (h : k' ≠ k) : alistGet (alistSet m k v) k' = alistGet m k' := by
  induction m with
  | nil =>
    show alistGet [(k, v)] k' = none
    rw [alistGet_cons_ne _ _ _ (by omega)]
    rfl
  | cons a l ih =>
    rw [alistSet_cons]
    by_cases ha : a.1 = k
    · rw [if_pos ha, alistGet_cons_ne _ _ _ (by simp; omega),
        alistGet_map_overwrite _ _ _ _ h, alistGet_cons_ne _ _ _ (by omega)]
    · rw [if_neg ha]
      by_cases ha' : a.1 = k'
      · rw [alistGet_cons_eq _ _ _ ha', alistGet_cons_eq _ _ _ ha']
      · rw [alistGet_cons_ne _ _ _ ha', alistGet_cons_ne _ _ _ ha']
        exact ih

/-- Helper: a lookup is `none` exactly when no entry carries the key. -/
theorem alistGet_eq_none_iff {α : Type} (m : List (Nat × α)) (k : Nat) :
    alistGet m k = none ↔ ∀ p ∈ m, ¬ p.1 = k := by
  unfold alistGet
  rw [Option.map_eq_none']
  rw [List.find?_eq_none]
  simp

/-- Helper: a successful lookup exhibits a member pair. -/
theorem mem_of_alistGet_eq_some {α : Type} (m : List (Nat × α)) (k : Nat) (v : α)
    (h : alistGet m k = some v) : (k, v) ∈ m := by
  unfold alistGet at h
  rw [Option.map_eq_some'] at h
  obtain ⟨p, hp, hv⟩ := h
  have hmem := List.mem_of_find?_eq_some hp
  have hkey := List.find?_some hp
  simp at hkey
  have : p = (k, v) := by
    obtain ⟨p1, p2⟩ := p
    simp at hkey hv
    simp [hkey, hv]
  rw [← this]
  exact hmem

/-- Helper: with duplicate-free keys, a member pair is found by lookup. -/
theorem alistGet_eq_some_of_mem {α : Type} (m : List (Nat × α)) (k : Nat) (v : α)
    (hnodup : (m.map Prod.fst).Nodup) (hmem : (k, v) ∈ m) : alistGet m k = some v := by
  induction m with
  | nil => simp at hmem
  | cons a l ih =>
    rw [List.map_cons, List.nodup_cons] at hnodup
    rcases List.mem_cons.mp hmem with heq | hmem'
    · rw [← heq]
      exact alistGet_cons_eq _ _ _ rfl
    · have hne : ¬ a.1 = k := by
        intro hc
        exact hnodup.1 (by
          rw [hc]
          exact List.mem_map.mpr ⟨(k, v), hmem', rfl⟩)
      rw [alistGet_cons_ne _ _ _ hne]
      exact ih hnodup.2 hmem'

/-- Helper: the keys of `alistSet` are the old keys, plus the new key at
the end when it was absent. -/
theorem keys_alistSet {α : Type} (m : List (Nat × α)) (k : Nat) (v : α) :
    (alistSet m k v).map Prod.fst =
      if m.any (fun p => p.1 = k) then m.map Prod.fst else m.map Prod.fst ++ [k] := by
  by_cases h : m.any (fun p => p.1 = k)
  · rw [if_pos h]
    unfold alistSet
    rw [if_pos h, List.map_map]
    apply List.map_congr_left
    intro p _
    by_cases hp : p.1 = k <;> simp [hp]
  · rw [if_neg h]
    unfold alistSet
    rw [if_neg h]
    simp

/-- Helper: one goal-tracking step only touches `goal_reached_turn`,
`winners` and `players_reached_end_this_turn`. -/
theorem cwc_track_shape (ct : Nat) (wt : Int) (acc : PackData × List Nat) (e : Nat × Int) :
    ∃ g w r, (cwc_track ct wt acc e).1 =
      { acc.1 with goal_reached_turn := g, winners := w, players_reached_end_this_turn := r } := by
  unfold cwc_track
  dsimp only
  split_ifs <;> exact ⟨_, _, _, rfl⟩

/-- Helper: the whole goal-tracking fold only touches
`goal_reached_turn`, `winners` and `players_reached_end_this_turn`. -/
theorem cwc_fold_shape (xs : List (Nat × Int)) (ct : Nat) (wt : Int)
    (d : PackData) (l : List Nat) :
    ∃ g w r, (xs.foldl (cwc_track ct wt) (d, l)).1 =
      { d with goal_reached_turn := g, winners := w, players_reached_end_this_turn := r } := by
  induction xs generalizing d l with
  | nil => exact ⟨_, _, _, rfl⟩
  | cons e xs ih =>
    rw [List.foldl_cons]
    obtain ⟨g1, w1, r1, h1⟩ := cwc_track_shape ct wt (d, l) e
    obtain ⟨g, w, r, h⟩ := ih (cwc_track ct wt (d, l) e).1 (cwc_track ct wt (d, l) e).2
    refine ⟨g, w, r, ?_⟩
    rw [show cwc_track ct wt (d, l) e =
        ((cwc_track ct wt (d, l) e).1, (cwc_track ct wt (d, l) e).2) from rfl] at *
    rw [h, h1]

/-- Helper: `check_win_condition` only touches `goal_reached_turn`,
`winners`, `players_reached_end_this_turn` and `game_ended`; the
participant map, turn counter, tiles, turn order, player numbers,
rolled list and forfeit set are untouched. -/
theorem check_win_condition_shape (gs : SLState) (cfg : GameConfig) :
    ∃ g w r b, (check_win_condition gs cfg).1 =
      { gs with data := { gs.data with goal_reached_turn := g, winners := w, players_reached_end_this_turn := r, game_ended := b } } := by
  unfold check_win_condition
  obtain ⟨g0, w0, r0, h⟩ :=
    cwc_fold_shape gs.data.tile_numbers gs.turn_count cfg.win_tile gs.data []
  dsimp only
  rw [h]
  split_ifs <;> exact ⟨_, _, _, _, rfl⟩

/-- Helper: `check_win_condition` preserves the tile map and the
rolled-this-turn list. -/
theorem check_win_preserves_tiles_rolled (st : SLState) (cfg : GameConfig) :
    (check_win_condition st cfg).1.data.tile_numbers = st.data.tile_numbers ∧
    (check_win_condition st cfg).1.data.players_rolled_this_turn =
      st.data.players_rolled_this_turn := by
  obtain ⟨g, w, r, b, h⟩ := check_win_condition_shape st cfg
  rw [h]
  exact ⟨rfl, rfl⟩

/-- Helper: a player selected by the turn-eligibility scan and not yet a
winner passes every rejection gate of `on_dice_rolled`, which then
resolves the movement. -/
theorem on_dice_rolled_parts_eq_move (gs : SLState) (player_id : Nat)
    (dice_result : Int) (cfg : GameConfig)
    (helig : next_player_to_roll gs cfg.win_tile = some player_id)
    (hwin : player_id ∉ gs.data.winners) :
    on_dice_rolled_parts gs player_id dice_result cfg =
      roll_and_move gs player_id dice_result cfg := by
  have hpred := List.find?_some helig
  have hmem := List.mem_of_find?_eq_some helig
  simp only [Bool.and_eq_true, Bool.not_eq_true', decide_eq_true_eq,
    decide_eq_false_iff_not] at hpred
  obtain ⟨⟨⟨hsome, hnrolled⟩, hnforfeit⟩, htile⟩ := hpred
  unfold on_dice_rolled_parts
  dsimp only
  rw [if_neg hwin, if_neg hnforfeit, if_neg (not_le.mpr htile), if_neg hnrolled,
    if_pos (List.ne_nil_of_mem hmem), helig]
  dsimp only
  rw [if_neg (by omega : ¬ player_id ≠ player_id)]

/-- Helper: the movement half of a permitted roll lands on the clamped
tile with at most one redirection applied, records the roll, and names
any redirection in the response parts. -/
theorem roll_and_move_spec (gs : SLState) (player_id : Nat) (dice_result : Int)
    (cfg : GameConfig) (hrolled : player_id ∉ gs.data.players_rolled_this_turn) :
    alistGet (roll_and_move gs player_id dice_result cfg).1.data.tile_numbers player_id =
      some (single_redirect cfg (clamped_tile gs.data player_id dice_result cfg.win_tile)) ∧
    player_id ∈ (roll_and_move gs player_id dice_result cfg).1.data.players_rolled_this_turn ∧
    ∃ parts, (roll_and_move gs player_id dice_result cfg).2.1 = some parts ∧
      (∀ tail_tile,
        intGet cfg.snakes (clamped_tile gs.data player_id dice_result cfg.win_tile) =
            some tail_tile →
          s!"🐍 Snake! Slid down to tile {tail_tile}" ∈ parts) ∧
      (intGet cfg.snakes (clamped_tile gs.data player_id dice_result cfg.win_tile) = none →
        ∀ top_tile,
          intGet cfg.ladders (clamped_tile gs.data player_id dice_result cfg.win_tile) =
              some top_tile →
            s!"🪜 Ladder! Climbed up to tile {top_tile}" ∈ parts) := by
  unfold roll_and_move
  dsimp only
  rw [show (if cfg.win_tile ≤ (alistGet gs.data.tile_numbers player_id).getD 1 + dice_result
      then cfg.win_tile
      else (alistGet gs.data.tile_numbers player_id).getD 1 + dice_result) =
    clamped_tile gs.data player_id dice_result cfg.win_tile from rfl]
  cases hsn : intGet cfg.snakes (clamped_tile gs.data player_id dice_result cfg.win_tile) with
  | some tail_tile =>
    dsimp only
    rw [if_neg hrolled]
    refine ⟨?_, ?_, ?_⟩
    · rw [(check_win_preserves_tiles_rolled _ cfg).1]
      dsimp only
      rw [alistGet_alistSet_self]
      simp [single_redirect, hsn]
    · rw [(check_win_preserves_tiles_rolled _ cfg).2]
      dsimp only
      exact List.mem_append_right _ (by simp)
    · refine ⟨_, rfl, ?_, ?_⟩
      · intro t ht
        cases ht
        simp
      · intro hnone
        cases hnone
  | none =>
    cases hld : intGet cfg.ladders (clamped_tile gs.data player_id dice_result cfg.win_tile) with
    | some top_tile =>
      dsimp only
      rw [if_neg hrolled]
      refine ⟨?_, ?_, ?_⟩
      · rw [(check_win_preserves_tiles_rolled _ cfg).1]
        dsimp only
        rw [alistGet_alistSet_self]
        simp [single_redirect, hsn, hld]
      · rw [(check_win_preserves_tiles_rolled _ cfg).2]
        dsimp only
        exact List.mem_append_right _ (by simp)
      · refine ⟨_, rfl, ?_, ?_⟩
        · intro t ht
          cases ht
        · intro _ t ht
          cases ht
          simp
    | none =>
      dsimp only
      rw [if_neg hrolled]
      refine ⟨?_, ?_, ?_⟩
      · rw [(check_win_preserves_tiles_rolled _ cfg).1]
        dsimp only
        rw [alistGet_alistSet_self]
        simp [single_redirect, hsn, hld]
      · rw [(check_win_preserves_tiles_rolled _ cfg).2]
        dsimp only
        exact List.mem_append_right _ (by simp)
      · refine ⟨_, rfl, ?_, ?_⟩
        · intro t ht
          cases ht
        · intro _ t ht
          cases ht

/-- C3: a permitted roll first clamps `current + r` to the goal tile,
then applies at most one configured hazard/shortcut redirection to the
clamped tile (never chaining from the redirect target), records the
participant as having acted this cycle, and the response names the
redirection whenever one occurred. -/
theorem movement_resolution_single_redirect (gs : SLState) (player_id : Nat)
    (dice_result : Int) (cfg : GameConfig)
    (helig : next_player_to_roll gs cfg.win_tile = some player_id)
    (hwin : player_id ∉ gs.data.winners) :
    alistGet (on_dice_rolled_parts gs player_id dice_result cfg).1.data.tile_numbers player_id =
      some (single_redirect cfg (clamped_tile gs.data player_id dice_result cfg.win_tile)) ∧
    player_id ∈
      (on_dice_rolled_parts gs player_id dice_result cfg).1.data.players_rolled_this_turn ∧
    ∃ parts, (on_dice_rolled_parts gs player_id dice_result cfg).2.1 = some parts ∧
      (on_dice_rolled gs player_id dice_result cfg).2.1 =
        some (String.intercalate "\n" parts) ∧
      (∀ tail_tile,
        intGet cfg.snakes (clamped_tile gs.data player_id dice_result cfg.win_tile) =
            some tail_tile →
          s!"🐍 Snake! Slid down to tile {tail_tile}" ∈ parts) ∧
      (intGet cfg.snakes (clamped_tile gs.data player_id dice_result cfg.win_tile) = none →
        ∀ top_tile,
          intGet cfg.ladders (clamped_tile gs.data player_id dice_result cfg.win_tile) =
              some top_tile →
            s!"🪜 Ladder! Climbed up to tile {top_tile}" ∈ parts) := by
  have heq := on_dice_rolled_parts_eq_move gs player_id dice_result cfg helig hwin
  have hpred := List.find?_some helig
  simp only [Bool.and_eq_true, Bool.not_eq_true', decide_eq_true_eq,
    decide_eq_false_iff_not] at hpred
  have hrolled : player_id ∉ gs.data.players_rolled_this_turn := hpred.1.1.2
  obtain ⟨h1, h2, parts, hp, hsn, hld⟩ := roll_and_move_spec gs player_id dice_result cfg hrolled
  rw [heq]
  refine ⟨h1, h2, parts, hp, ?_, hsn, hld⟩
  unfold on_dice_rolled
  dsimp only
  rw [heq, hp]
  rfl

/-- Witness for C3 at the spec's worked example: tile 10, roll 6, land
on 16, hazard 16 -> 6, response names the snake. -/
theorem movement_resolution_single_redirect_witness :
    next_player_to_roll gsC3 cfgC3.win_tile = some 7 ∧
    7 ∉ gsC3.data.winners ∧
    alistGet (on_dice_rolled_parts gsC3 7 6 cfgC3).1.data.tile_numbers 7 =
      some (single_redirect cfgC3 (clamped_tile gsC3.data 7 6 cfgC3.win_tile)) ∧
    single_redirect cfgC3 (clamped_tile gsC3.data 7 6 cfgC3.win_tile) = 6 ∧
    (on_dice_rolled gsC3 7 6 cfgC3).2.1 =
      some "Moved to tile 16\n🐍 Snake! Slid down to tile 6" := by
  have h := movement_resolution_single_redirect gsC3 7 6 cfgC3 (by decide) (by decide)
  exact ⟨by decide, by decide, h.1, by decide, by rfl⟩

/-- Helper: `find?` only depends on predicate values at list members. -/
theorem find?_congr_mem (l : List Nat) (p q : Nat → Bool)
    (h : ∀ u ∈ l, p u = q u) : l.find? p = l.find? q := by
  induction l with
  | nil => rfl
  | cons a l ih =>
    have ha := h a (by simp)
    rw [List.find?_cons, List.find?_cons, ha]
    cases q a
    · exact ih (fun u hu => h u (List.mem_cons_of_mem _ hu))
    · rfl

/-- Helper: when every turn-list entry is present in the participant
map, the source's eligibility scan agrees with the spec's
three-condition scan. -/
theorem next_player_eq_spec (gs : SLState) (win_tile : Int)
    (hplayers : ∀ u ∈ gs.data.turn_order, (alistGet gs.players u).isSome) :
    next_player_to_roll gs win_tile = spec_next_player gs.data win_tile := by
  unfold next_player_to_roll spec_next_player
  apply find?_congr_mem
  intro u hu
  rw [hplayers u hu]
  simp

/-- C8: with every turn-list entry present in the participant map and
winners only at or past the goal, the participant permitted to act is
exactly the first turn-list entry that is not forfeited, has not acted
this cycle and is below the goal tile; a roll attempt by anyone else
gets an explanatory negative response with the whole game state
unchanged, while the permitted participant's roll resolves movement and
is recorded. -/
theorem turn_eligibility_gate (gs : SLState) (player_id : Nat) (dice_result : Int)
    (cfg : GameConfig)
    (hmem : player_id ∈ gs.data.turn_order)
    (hplayers : ∀ u ∈ gs.data.turn_order, (alistGet gs.players u).isSome)
    (hwinners : ∀ u ∈ gs.data.winners, cfg.win_tile ≤ (alistGet gs.data.tile_numbers u).getD 1) :
    (spec_next_player gs.data cfg.win_tile ≠ some player_id →
      (on_dice_rolled_parts gs player_id dice_result cfg).1 = gs ∧
      (∃ msg, (on_dice_rolled_parts gs player_id dice_result cfg).2.1 = some msg) ∧
      (on_dice_rolled_parts gs player_id dice_result cfg).2.2.1 = false) ∧
    (spec_next_player gs.data cfg.win_tile = some player_id →
      alistGet (on_dice_rolled_parts gs player_id dice_result cfg).1.data.tile_numbers
          player_id =
        some (single_redirect cfg (clamped_tile gs.data player_id dice_result cfg.win_tile)) ∧
      player_id ∈
        (on_dice_rolled_parts gs player_id dice_result cfg).1.data.players_rolled_this_turn) := by
  have hscan := next_player_eq_spec gs cfg.win_tile hplayers
  constructor
  · intro hne
    unfold on_dice_rolled_parts
    dsimp only
    by_cases h1 : player_id ∈ gs.data.winners
    · rw [if_pos h1]
      exact ⟨rfl, ⟨_, rfl⟩, rfl⟩
    · rw [if_neg h1]
      by_cases h2 : player_id ∈ gs.data.forfeited_players
      · rw [if_pos h2]
        exact ⟨rfl, ⟨_, rfl⟩, rfl⟩
      · rw [if_neg h2]
        by_cases h3 : cfg.win_tile ≤ (alistGet gs.data.tile_numbers player_id).getD 1
        · rw [if_pos h3]
          exact ⟨rfl, ⟨_, rfl⟩, rfl⟩
        · rw [if_neg h3]
          by_cases h4 : player_id ∈ gs.data.players_rolled_this_turn
          · rw [if_pos h4]
            exact ⟨rfl, ⟨_, rfl⟩, rfl⟩
          · rw [if_neg h4, if_pos (List.ne_nil_of_mem hmem), hscan]
            have hfound : (spec_next_player gs.data cfg.win_tile).isSome := by
              unfold spec_next_player
              rw [List.find?_isSome]
              refine ⟨player_id, hmem, ?_⟩
              simp only [Bool.and_eq_true, Bool.not_eq_true', decide_eq_true_eq,
                decide_eq_false_iff_not]
              exact ⟨⟨h4, h2⟩, by omega⟩
            obtain ⟨next_id, hnext⟩ := Option.isSome_iff_exists.mp hfound
            rw [hnext]
            dsimp only
            rw [if_pos (by intro hcon; exact hne (by rw [hnext, hcon]))]
            exact ⟨rfl, ⟨_, rfl⟩, rfl⟩
  · intro hpos
    have helig : next_player_to_roll gs cfg.win_tile = some player_id := by rw [hscan, hpos]
    have hw : player_id ∉ gs.data.winners := by
      intro hcon
      have hpred2 := List.find?_some helig
      simp only [Bool.and_eq_true, Bool.not_eq_true', decide_eq_true_eq,
        decide_eq_false_iff_not] at hpred2
      have := hwinners player_id hcon
      omega
    have hrolled : player_id ∉ gs.data.players_rolled_this_turn := by
      have hpred2 := List.find?_some helig
      simp only [Bool.and_eq_true, Bool.not_eq_true', decide_eq_true_eq,
        decide_eq_false_iff_not] at hpred2
      exact hpred2.1.1.2
    rw [on_dice_rolled_parts_eq_move gs player_id dice_result cfg helig hw]
    obtain ⟨h1, h2, _⟩ := roll_and_move_spec gs player_id dice_result cfg hrolled
    exact ⟨h1, h2⟩

/-- Witness for C8: participant 8 (in the turn list, but not first
eligible) is rejected with the state unchanged, while participant 7 is
the permitted one and moves. -/
theorem turn_eligibility_gate_witness :
    (8 : Nat) ∈ gsC3.data.turn_order ∧
    (on_dice_rolled_parts gsC3 8 6 cfgC3).1 = gsC3 ∧
    alistGet (on_dice_rolled_parts gsC3 7 6 cfgC3).1.data.tile_numbers 7 =
      some (single_redirect cfgC3 (clamped_tile gsC3.data 7 6 cfgC3.win_tile)) := by
  have h8 := turn_eligibility_gate gsC3 8 6 cfgC3 (by decide) (by decide) (by decide)
  have h7 := turn_eligibility_gate gsC3 7 6 cfgC3 (by decide) (by decide) (by decide)
  refine ⟨by decide, ?_, ?_⟩
  · exact (h8.1 (by decide)).1
  · exact (h7.2 (by decide)).1

/-- Helper: a left fold of `min` is bounded by its initial value. -/
theorem foldl_min_le_init (xs : List Nat) (a : Nat) : xs.foldl min a ≤ a := by
  induction xs generalizing a with
  | nil => simp
  | cons x xs ih => exact le_trans (ih (min a x)) (min_le_left a x)

/-- Helper: a left fold of `min` is bounded by every list member. -/
theorem foldl_min_le_mem (xs : List Nat) (a v : Nat) (hv : v ∈ xs) :
    xs.foldl min a ≤ v := by
  induction xs generalizing a with
  | nil => simp at hv
  | cons x xs ih =>
    rcases List.mem_cons.mp hv with h | h
    · subst h
      exact le_trans (foldl_min_le_init xs (min a v)) (min_le_right a v)
    · exact ih (min a x) h

/-- Helper: a left fold of `min` is the initial value or a member. -/
theorem foldl_min_mem (xs : List Nat) (a : Nat) :
    xs.foldl min a = a ∨ xs.foldl min a ∈ xs := by
  induction xs generalizing a with
  | nil => simp
  | cons x xs ih =>
    rcases ih (min a x) with h | h
    · rcases min_cases a x with ⟨hm, _⟩ | ⟨hm, _⟩
      · left
        rw [List.foldl_cons, h, hm]
      · right
        rw [List.foldl_cons, h, hm]
        simp
    · right
      exact List.mem_cons_of_mem _ h

/-- Helper: the Python `min` of a non-empty list bounds every member. -/
theorem pyMinNat_le (l : List Nat) (v : Nat) (hv : v ∈ l) : pyMinNat l ≤ v := by
  cases l with
  | nil => simp at hv
  | cons x xs =>
    unfold pyMinNat
    rcases List.mem_cons.mp hv with h | h
    · subst h
      exact foldl_min_le_init xs v
    · exact foldl_min_le_mem xs x v h

/-- Helper: the Python `min` of a non-empty list is one of its members. -/
theorem pyMinNat_mem (l : List Nat) (h : l ≠ []) : pyMinNat l ∈ l := by
  cases l with
  | nil => exact absurd rfl h
  | cons x xs =>
    show xs.foldl min x ∈ x :: xs
    rcases foldl_min_mem xs x with h1 | h1
    · rw [h1]
      simp
    · exact List.mem_cons_of_mem _ h1

/-- Helper: present keys stay present across an `alistSet`. -/
theorem isSome_alistGet_alistSet {α : Type} (m : List (Nat × α)) (k u : Nat) (v : α)
    (h : (alistGet m u).isSome) : (alistGet (alistSet m k v) u).isSome := by
  by_cases hk : u = k
  · subst hk
    rw [alistGet_alistSet_self]
    rfl
  · rw [alistGet_alistSet_ne _ _ _ _ hk]
    exact h

/-- Helper: one goal-tracking step never removes a recorded arrival. -/
theorem cwc_track_goal_mono (ct : Nat) (wt : Int) (acc : PackData × List Nat)
    (e : Nat × Int) (u : Nat) (h : (alistGet acc.1.goal_reached_turn u).isSome) :
    (alistGet (cwc_track ct wt acc e).1.goal_reached_turn u).isSome := by
  unfold cwc_track
  dsimp only
  split_ifs <;> first
    | exact h
    | · dsimp only
        exact isSome_alistGet_alistSet _ _ _ _ h

/-- Helper: after its goal-tracking step, a participant at or past the
goal has a recorded arrival turn. -/
theorem cwc_track_goal_now (ct : Nat) (wt : Int) (acc : PackData × List Nat)
    (u : Nat) (t : Int) (h : wt ≤ t) :
    (alistGet (cwc_track ct wt acc (u, t)).1.goal_reached_turn u).isSome := by
  unfold cwc_track
  dsimp only
  rw [if_pos h]
  by_cases hN : (alistGet acc.1.goal_reached_turn u).isNone
  · rw [if_pos hN]
    dsimp only
    split_ifs <;> (dsimp only; rw [alistGet_alistSet_self]; rfl)
  · rw [if_neg hN]
    dsimp only
    split_ifs <;> (dsimp only
                   cases hopt : alistGet acc.1.goal_reached_turn u with
                   | none => exact absurd (by rw [hopt]; rfl) hN
                   | some x => rfl)

/-- Helper: the goal-tracking fold never removes a recorded arrival. -/
theorem cwc_fold_goal_mono (xs : List (Nat × Int)) (ct : Nat) (wt : Int)
    (acc : PackData × List Nat) (u : Nat)
    (h : (alistGet acc.1.goal_reached_turn u).isSome) :
    (alistGet ((xs.foldl (cwc_track ct wt) acc).1).goal_reached_turn u).isSome := by
  induction xs generalizing acc with
  | nil => exact h
  | cons e xs ih =>
    rw [List.foldl_cons]
    exact ih _ (cwc_track_goal_mono ct wt acc e u h)

/-- Helper: after the goal-tracking fold, every participant whose tile
is at or past the goal has a recorded arrival turn. -/
theorem cwc_fold_goal_mem (xs : List (Nat × Int)) (ct : Nat) (wt : Int)
    (acc : PackData × List Nat) (u : Nat) (t : Int)
    (hmem : (u, t) ∈ xs) (ht : wt ≤ t) :
    (alistGet ((xs.foldl (cwc_track ct wt) acc).1).goal_reached_turn u).isSome := by
  induction xs generalizing acc with
  | nil => simp at hmem
  | cons e xs ih =>
    rw [List.foldl_cons]
    rcases List.mem_cons.mp hmem with heq | hmem'
    · subst heq
      exact cwc_fold_goal_mono xs ct wt _ u (cwc_track_goal_now ct wt acc u t ht)
    · exact ih (cwc_track ct wt acc e) hmem'

/-- Helper: one goal-tracking step preserves duplicate-free goal keys. -/
theorem cwc_track_goal_nodup (ct : Nat) (wt : Int) (acc : PackData × List Nat)
    (e : Nat × Int) (h : (acc.1.goal_reached_turn.map Prod.fst).Nodup) :
    (((cwc_track ct wt acc e).1).goal_reached_turn.map Prod.fst).Nodup := by
  unfold cwc_track
  dsimp only
  by_cases h1 : wt ≤ e.2
  · rw [if_pos h1]
    by_cases hN : (alistGet acc.1.goal_reached_turn e.1).isNone
    · rw [if_pos hN]
      dsimp only
      have hkeys : (alistSet acc.1.goal_reached_turn e.1 ct).map Prod.fst =
          acc.1.goal_reached_turn.map Prod.fst ++ [e.1] := by
        rw [keys_alistSet]
        rw [if_neg ?_]
        rw [Option.isNone_iff_eq_none] at hN
        rw [alistGet_eq_none_iff] at hN
        intro hc
        obtain ⟨p, hp, hpk⟩ := List.any_eq_true.mp hc
        exact hN p hp (by simpa using hpk)
      have hnotin : e.1 ∉ acc.1.goal_reached_turn.map Prod.fst := by
        rw [Option.isNone_iff_eq_none] at hN
        rw [alistGet_eq_none_iff] at hN
        intro hc
        obtain ⟨p, hp, hpk⟩ := List.mem_map.mp hc
        exact hN p hp hpk
      split_ifs <;> (dsimp only; rw [hkeys]; simp [List.nodup_append, h, hnotin])
    · rw [if_neg hN]
      dsimp only
      split_ifs <;> (dsimp only; exact h)
  · rw [if_neg h1]
    exact h

/-- Helper: the goal-tracking fold preserves duplicate-free goal keys. -/
theorem cwc_fold_goal_nodup (xs : List (Nat × Int)) (ct : Nat) (wt : Int)
    (acc : PackData × List Nat)
    (h : (acc.1.goal_reached_turn.map Prod.fst).Nodup) :
    (((xs.foldl (cwc_track ct wt) acc).1).goal_reached_turn.map Prod.fst).Nodup := by
  induction xs generalizing acc with
  | nil => exact h
  | cons e xs ih =>
    rw [List.foldl_cons]
    exact ih _ (cwc_track_goal_nodup ct wt acc e h)

/-- Helper: membership in the rebuilt winner list is exactly carrying
the minimum recorded arrival turn. -/
theorem min_filter_winners_iff (g : List (Nat × Nat))
    (hnodup : (g.map Prod.fst).Nodup) (hgne : g ≠ []) (uid : Nat) :
    (uid ∈ (g.filter (fun p => p.2 = pyMinNat (g.map (fun p => p.2)))).map (fun p => p.1) ↔
      ∃ t, alistGet g uid = some t ∧ ∀ q ∈ g, t ≤ q.2) := by
  constructor
  · intro hmem
    obtain ⟨p, hp, hpk⟩ := List.mem_map.mp hmem
    have hf := List.mem_filter.mp hp
    have hval : p.2 = pyMinNat (g.map (fun p => p.2)) := by simpa using hf.2
    refine ⟨p.2, ?_, ?_⟩
    · have hpm : (uid, p.2) ∈ g := by
        have : p = (uid, p.2) := by
          obtain ⟨p1, p2⟩ := p
          simp at hpk
          simp [hpk]
        rw [← this]
        exact hf.1
      exact alistGet_eq_some_of_mem g uid p.2 hnodup hpm
    · intro q hq
      rw [hval]
      exact pyMinNat_le _ _ (List.mem_map.mpr ⟨q, hq, rfl⟩)
  · rintro ⟨t, hget, hle⟩
    have hmem := mem_of_alistGet_eq_some g uid t hget
    have hvalmem : t ∈ g.map (fun p => p.2) := List.mem_map.mpr ⟨(uid, t), hmem, rfl⟩
    have h1 : pyMinNat (g.map (fun p => p.2)) ≤ t := pyMinNat_le _ _ hvalmem
    have h2 : t ≤ pyMinNat (g.map (fun p => p.2)) := by
      have hmm := pyMinNat_mem (g.map (fun p => p.2)) (by simpa using hgne)
      obtain ⟨q, hq, hqv⟩ := List.mem_map.mp hmm
      rw [← hqv]
      exact hle q hq
    have ht : t = pyMinNat (g.map (fun p => p.2)) := le_antisymm h2 h1
    exact List.mem_map.mpr ⟨(uid, t), List.mem_filter.mpr ⟨hmem, by simpa using ht⟩, rfl⟩

/-- C2: when every participant's tile is at or past the goal tile and
the session has not ended yet, `check_win_condition` ends the session
and recomputes the winner set to be exactly the participants whose
recorded goal-arrival turn equals the minimum recorded turn over all
participants — ties produce multiple winners, strictly later arrivals
are excluded. -/
theorem game_end_winner_recomputation (gs : SLState) (cfg : GameConfig)
    (hne : gs.data.tile_numbers ≠ [])
    (hall : ∀ p ∈ gs.data.tile_numbers, cfg.win_tile ≤ p.2)
    (hended : gs.data.game_ended = false)
    (hnodup : (gs.data.goal_reached_turn.map Prod.fst).Nodup) :
    (check_win_condition gs cfg).2.2 = true ∧
    (check_win_condition gs cfg).1.data.game_ended = true ∧
    (∀ uid, uid ∈ (check_win_condition gs cfg).1.data.winners ↔
      ∃ t, alistGet (check_win_condition gs cfg).1.data.goal_reached_turn uid = some t ∧
        ∀ q ∈ (check_win_condition gs cfg).1.data.goal_reached_turn, t ≤ q.2) := by
  obtain ⟨g, w, r, hfold⟩ :=
    cwc_fold_shape gs.data.tile_numbers gs.turn_count cfg.win_tile gs.data []
  have hpresent : ∀ p ∈ gs.data.tile_numbers, (alistGet g p.1).isSome := by
    intro p hp
    have hx := cwc_fold_goal_mem gs.data.tile_numbers gs.turn_count cfg.win_tile
      (gs.data, []) p.1 p.2 hp (hall p hp)
    rw [hfold] at hx
    exact hx
  have hgnodup : (g.map Prod.fst).Nodup := by
    have hx := cwc_fold_goal_nodup gs.data.tile_numbers gs.turn_count cfg.win_tile
      (gs.data, []) hnodup
    rw [hfold] at hx
    exact hx
  have hgne : g ≠ [] := by
    obtain ⟨p, hp⟩ := List.exists_mem_of_ne_nil gs.data.tile_numbers hne
    have hx := hpresent p hp
    intro hc
    rw [hc] at hx
    simp [alistGet] at hx
  unfold check_win_condition
  dsimp only
  rw [hfold]
  dsimp only
  rw [if_pos (by
    rw [List.all_eq_true]
    intro p hp
    simpa using hall p hp)]
  rw [if_neg (by simp [hended])]
  dsimp only
  rw [if_pos hgne]
  dsimp only
  refine ⟨rfl, rfl, ?_⟩
  intro uid
  exact min_filter_winners_iff g hgnodup hgne uid

/-- Witness for C2 at a concrete finished game: participants 1 and 2
tied on turn 5 are both winners, participant 3 (turn 7) is not, and the
session ends. -/
theorem game_end_winner_recomputation_witness :
    (check_win_condition gsC2 cfg10).2.2 = true ∧
    (1 : Nat) ∈ (check_win_condition gsC2 cfg10).1.data.winners ∧
    (2 : Nat) ∈ (check_win_condition gsC2 cfg10).1.data.winners ∧
    (3 : Nat) ∉ (check_win_condition gsC2 cfg10).1.data.winners := by
  have h := game_end_winner_recomputation gsC2 cfg10 (by decide) (by decide) (by decide)
    (by decide)
  refine ⟨h.1, ?_, by decide, by decide⟩
  exact (h.2.2 1).mpr ⟨5, by decide, by decide⟩

/-- Helper: erasing a key makes its lookup `none`. -/
theorem alistGet_alistErase_self {α : Type} (m : List (Nat × α)) (k : Nat) :
    alistGet (alistErase m k) k = none := by
  rw [alistGet_eq_none_iff]
  intro p hp
  have := List.of_mem_filter hp
  simpa using this

/-- Helper: erasing a key leaves other lookups unchanged. -/
theorem alistGet_alistErase_ne {α : Type} (m : List (Nat × α)) (k u : Nat)
    (h : u ≠ k) : alistGet (alistErase m k) u = alistGet m u := by
  induction m with
  | nil => rfl
  | cons a l ih =>
    unfold alistErase at *
    by_cases ha : a.1 = k
    · rw [List.filter_cons_of_neg (by simpa using ha), alistGet_cons_ne _ _ _ (by omega)]
      exact ih
    · rw [List.filter_cons_of_pos (by simpa using ha)]
      by_cases ha' : a.1 = u
      · rw [alistGet_cons_eq _ _ _ ha', alistGet_cons_eq _ _ _ ha']
      · rw [alistGet_cons_ne _ _ _ ha', alistGet_cons_ne _ _ _ ha']
        exact ih

/-- Helper: one goal-tracking step keeps existing winners. -/
theorem cwc_track_winners_mono (ct : Nat) (wt : Int) (acc : PackData × List Nat)
    (e : Nat × Int) (u : Nat) (h : u ∈ acc.1.winners) :
    u ∈ (cwc_track ct wt acc e).1.winners := by
  unfold cwc_track
  dsimp only
  split_ifs <;> dsimp only <;> first
    | exact h
    | exact List.mem_append_left _ h

/-- Helper: the goal-tracking step adds a participant at or past the
goal to the winner list. -/
theorem cwc_track_winners_now (ct : Nat) (wt : Int) (acc : PackData × List Nat)
    (u : Nat) (t : Int) (h : wt ≤ t) :
    u ∈ (cwc_track ct wt acc (u, t)).1.winners := by
  unfold cwc_track
  dsimp only
  rw [if_pos h]
  split_ifs with h1 h2 h3 <;> dsimp only <;> first
    | assumption
    | exact List.mem_append_right _ (by simp)

/-- Helper: the goal-tracking fold keeps existing winners. -/
theorem cwc_fold_winners_mono (xs : List (Nat × Int)) (ct : Nat) (wt : Int)
    (acc : PackData × List Nat) (u : Nat) (h : u ∈ acc.1.winners) :
    u ∈ ((xs.foldl (cwc_track ct wt) acc).1).winners := by
  induction xs generalizing acc with
  | nil => exact h
  | cons e xs ih =>
    rw [List.foldl_cons]
    exact ih _ (cwc_track_winners_mono ct wt acc e u h)

/-- Helper: after the goal-tracking fold, every participant at or past
the goal is in the winner list. -/
theorem cwc_fold_winners_mem (xs : List (Nat × Int)) (ct : Nat) (wt : Int)
    (acc : PackData × List Nat) (u : Nat) (t : Int)
    (hmem : (u, t) ∈ xs) (ht : wt ≤ t) :
    u ∈ ((xs.foldl (cwc_track ct wt) acc).1).winners := by
  induction xs generalizing acc with
  | nil => simp at hmem
  | cons e xs ih =>
    rw [List.foldl_cons]
    rcases List.mem_cons.mp hmem with heq | hmem'
    · subst heq
      exact cwc_fold_winners_mono xs ct wt _ u (cwc_track_winners_now ct wt acc u t ht)
    · exact ih (cwc_track ct wt acc e) hmem'

/-- Helper: while the game is still running (someone below the goal), a
win check puts every participant whose tile is at or past the goal into
the winner list — including forfeited ones. -/
theorem check_win_readds_goal_reacher (gs : SLState) (cfg : GameConfig)
    (uid : Nat) (t : Int)
    (hmem : (uid, t) ∈ gs.data.tile_numbers) (ht : cfg.win_tile ≤ t)
    (q : Nat × Int) (hq : q ∈ gs.data.tile_numbers) (hqlt : q.2 < cfg.win_tile) :
    uid ∈ (check_win_condition gs cfg).1.data.winners := by
  obtain ⟨g, w, r, hfold⟩ :=
    cwc_fold_shape gs.data.tile_numbers gs.turn_count cfg.win_tile gs.data []
  have hwinner : uid ∈ w := by
    have hx := cwc_fold_winners_mem gs.data.tile_numbers gs.turn_count cfg.win_tile
      (gs.data, []) uid t hmem ht
    rw [hfold] at hx
    exact hx
  unfold check_win_condition
  dsimp only
  rw [hfold]
  dsimp only
  rw [if_neg (by
    intro hc
    rw [List.all_eq_true] at hc
    have := hc q hq
    simp at this
    omega)]
  split_ifs <;> exact hwinner

/-- C5 counterexample: at a concrete state, forfeiting participant 1
deletes their transformation count (the operation does more than flip
forfeited membership and drop winner eligibility), and the very next
win-condition check re-adds the still-forfeited participant to the
winner set. -/
theorem forfeit_frame_counterexample :
    alistGet gsC5.data.transformation_counts 1 = some (some 2) ∧
    alistGet (command_gamequit_data gsC5.data 1 "J10").transformation_counts 1 = none ∧
    1 ∈ (command_gamequit_data gsC5.data 1 "J10").forfeited_players ∧
    1 ∉ (command_gamequit_data gsC5.data 1 "J10").winners ∧
    1 ∈ (check_win_condition { gsC5 with data := command_gamequit_data gsC5.data 1 "J10" }
          cfg10).1.data.winners ∧
    1 ∈ (check_win_condition { gsC5 with data := command_gamequit_data gsC5.data 1 "J10" }
          cfg10).1.data.forfeited_players := by
  refine ⟨rfl, rfl, by decide, by decide, ?_, ?_⟩
  · decide
  · decide

/-- C5 (amended): forfeiting adds the participant to the forfeited set,
removes them from the winner, acted-this-cycle and reached-end lists,
preserves their grid position for re-adding, and deletes their
character metadata and goal-arrival record; it never removes them from
the turn list or the board and does not alter turn-list order, player
numbers, tile positions, or any other participant's state.  However,
while their tile is at or past the goal and the game is still running,
a later win-condition check re-adds the forfeited participant to the
winner set. -/
theorem forfeit_flags_and_preserves (data : PackData) (uid : Nat) (pos : String)
    (hw : data.winners.Nodup) (hr : data.players_rolled_this_turn.Nodup)
    (he : data.players_reached_end_this_turn.Nodup) :
    uid ∈ (command_gamequit_data data uid pos).forfeited_players ∧
    uid ∉ (command_gamequit_data data uid pos).winners ∧
    uid ∉ (command_gamequit_data data uid pos).players_rolled_this_turn ∧
    uid ∉ (command_gamequit_data data uid pos).players_reached_end_this_turn ∧
    alistGet (command_gamequit_data data uid pos).goal_reached_turn uid = none ∧
    alistGet (command_gamequit_data data uid pos).transformation_counts uid = none ∧
    alistGet (command_gamequit_data data uid pos).original_characters uid = none ∧
    alistGet (command_gamequit_data data uid pos).removed_player_positions uid = some pos ∧
    (command_gamequit_data data uid pos).turn_order = data.turn_order ∧
    (command_gamequit_data data uid pos).player_numbers = data.player_numbers ∧
    (command_gamequit_data data uid pos).tile_numbers = data.tile_numbers ∧
    (∀ u, u ≠ uid →
      alistGet (command_gamequit_data data uid pos).goal_reached_turn u =
          alistGet data.goal_reached_turn u ∧
      alistGet (command_gamequit_data data uid pos).transformation_counts u =
          alistGet data.transformation_counts u ∧
      alistGet (command_gamequit_data data uid pos).original_characters u =
          alistGet data.original_characters u ∧
      (u ∈ (command_gamequit_data data uid pos).winners ↔ u ∈ data.winners) ∧
      (u ∈ (command_gamequit_data data uid pos).players_rolled_this_turn ↔
          u ∈ data.players_rolled_this_turn) ∧
      (u ∈ (command_gamequit_data data uid pos).forfeited_players ↔
          u ∈ data.forfeited_players)) ∧
    (∀ (gs : SLState) (cfg : GameConfig) (t : Int) (q : Nat × Int),
      (uid, t) ∈ gs.data.tile_numbers → cfg.win_tile ≤ t →
      q ∈ gs.data.tile_numbers → q.2 < cfg.win_tile →
      uid ∈ (check_win_condition gs cfg).1.data.winners) := by
  unfold command_gamequit_data
  dsimp only
  split_ifs with hf
  all_goals dsimp only
  all_goals refine ⟨?_, ?_, ?_, ?_, ?_, ?_, ?_, ?_, rfl, rfl, rfl, ?_, ?_⟩
  · exact hf
  · intro hc
    exact ((List.Nodup.mem_erase_iff hw).mp hc).1 rfl
  · intro hc
    exact ((List.Nodup.mem_erase_iff hr).mp hc).1 rfl
  · intro hc
    exact ((List.Nodup.mem_erase_iff he).mp hc).1 rfl
  · exact alistGet_alistErase_self _ _
  · exact alistGet_alistErase_self _ _
  · exact alistGet_alistErase_self _ _
  · exact alistGet_alistSet_self _ _ _
  · intro u hu
    refine ⟨alistGet_alistErase_ne _ _ _ hu, alistGet_alistErase_ne _ _ _ hu,
      alistGet_alistErase_ne _ _ _ hu, ?_, ?_, Iff.rfl⟩
    · exact List.mem_erase_of_ne hu
    · exact List.mem_erase_of_ne hu
  · intro gs cfg t q h1 h2 h3 h4
    exact check_win_readds_goal_reacher gs cfg uid t h1 h2 q h3 h4
  · exact List.mem_append_right _ (by simp)
  · intro hc
    exact ((List.Nodup.mem_erase_iff hw).mp hc).1 rfl
  · intro hc
    exact ((List.Nodup.mem_erase_iff hr).mp hc).1 rfl
  · intro hc
    exact ((List.Nodup.mem_erase_iff he).mp hc).1 rfl
  · exact alistGet_alistErase_self _ _
  · exact alistGet_alistErase_self _ _
  · exact alistGet_alistErase_self _ _
  · exact alistGet_alistSet_self _ _ _
  · intro u hu
    refine ⟨alistGet_alistErase_ne _ _ _ hu, alistGet_alistErase_ne _ _ _ hu,
      alistGet_alistErase_ne _ _ _ hu, ?_, ?_, ?_⟩
    · exact List.mem_erase_of_ne hu
    · exact List.mem_erase_of_ne hu
    · simp [List.mem_append, hu]
  · intro gs cfg t q h1 h2 h3 h4
    exact check_win_readds_goal_reacher gs cfg uid t h1 h2 q h3 h4

/-- Witness for C5 (amended) at the concrete two-participant state. -/
theorem forfeit_flags_and_preserves_witness :
    gsC5.data.winners.Nodup ∧
    1 ∈ (command_gamequit_data gsC5.data 1 "J10").forfeited_players ∧
    (command_gamequit_data gsC5.data 1 "J10").turn_order = gsC5.data.turn_order ∧
    (command_gamequit_data gsC5.data 1 "J10").tile_numbers = gsC5.data.tile_numbers := by
  have h := forfeit_flags_and_preserves gsC5.data 1 "J10" (by decide) (by decide) (by decide)
  exact ⟨by decide, h.1, h.2.2.2.2.2.2.2.2.1, h.2.2.2.2.2.2.2.2.2.2.1⟩

/-- Helper: the pack assignment callback only touches
`original_characters`. -/
theorem on_character_assigned_shape (d : PackData) (u : Nat) (c : Option String) :
    ∃ oc, on_character_assigned d u c = { d with original_characters := oc } := by
  unfold on_character_assigned
  split <;> exact ⟨_, rfl⟩

/-- Helper: `tile_numbers` projection through the assignment callback. -/
theorem on_character_assigned_tile_numbers (d : PackData) (u : Nat) (c : Option String) :
    (on_character_assigned d u c).tile_numbers = d.tile_numbers := by
  obtain ⟨oc, h⟩ := on_character_assigned_shape d u c
  rw [h]

/-- Helper: `turn_order` projection through the assignment callback. -/
theorem on_character_assigned_turn_order (d : PackData) (u : Nat) (c : Option String) :
    (on_character_assigned d u c).turn_order = d.turn_order := by
  obtain ⟨oc, h⟩ := on_character_assigned_shape d u c
  rw [h]

/-- Helper: `player_numbers` projection through the assignment
callback. -/
theorem on_character_assigned_player_numbers (d : PackData) (u : Nat) (c : Option String) :
    (on_character_assigned d u c).player_numbers = d.player_numbers := by
  obtain ⟨oc, h⟩ := on_character_assigned_shape d u c
  rw [h]

/-- C6 counterexample: at a concrete two-participant state, a single
`!swap` exchange followed by `revertChain(buildChain(1))` leaves
participant 1 wearing participant 2's outfit — the outfit display
metadata is not restored, because `_revert_swap_direct` never swaps
`outfit_name` back. -/
theorem swap_revert_outfit_counterexample :
    (alistGet gsC6.players 1).map (fun p => p.outfit_name) = some (some "dress") ∧
    build_swap_chain (command_swap_apply gsC6 1 2) 1 = [(1, 2)] ∧
    (alistGet (revert_swap_chain (command_swap_apply gsC6 1 2)
        (build_swap_chain (command_swap_apply gsC6 1 2) 1)).players 1).map
      (fun p => p.outfit_name) = some (some "suit") := by
  refine ⟨rfl, by decide, by decide⟩


/-- Helper: the tile exchange only touches `tile_numbers`. -/
theorem swap_tile_numbers_shape (d : PackData) (u1 u2 : Nat) :
    ∃ tn, swap_tile_numbers d u1 u2 = { d with tile_numbers := tn } := by
  unfold swap_tile_numbers
  split <;> exact ⟨_, rfl⟩

/-- Helper: `tile_numbers` passes through the metadata swap and the two
assignment callbacks unchanged. -/
theorem swap_meta_pipeline_tiles (d : PackData) (u1 u2 : Nat) (c1 c2 : Option String) :
    (on_character_assigned (on_character_assigned
        (swap_pack_player_metadata d u1 u2) u1 c2) u2 c1).tile_numbers = d.tile_numbers := by
  rw [on_character_assigned_tile_numbers, on_character_assigned_tile_numbers]
  simp [swap_pack_player_metadata]

/-- Helper: `turn_order` passes through the metadata swap and the two
assignment callbacks unchanged. -/
theorem swap_meta_pipeline_turn_order (d : PackData) (u1 u2 : Nat) (c1 c2 : Option String) :
    (on_character_assigned (on_character_assigned
        (swap_pack_player_metadata d u1 u2) u1 c2) u2 c1).turn_order = d.turn_order := by
  rw [on_character_assigned_turn_order, on_character_assigned_turn_order]
  simp [swap_pack_player_metadata]

/-- Helper: `player_numbers` passes through the metadata swap and the
two assignment callbacks unchanged. -/
theorem swap_meta_pipeline_player_numbers (d : PackData) (u1 u2 : Nat)
    (c1 c2 : Option String) :
    (on_character_assigned (on_character_assigned
        (swap_pack_player_metadata d u1 u2) u1 c2) u2 c1).player_numbers =
      d.player_numbers := by
  rw [on_character_assigned_player_numbers, on_character_assigned_player_numbers]
  simp [swap_pack_player_metadata]

/-- Helper: the forward `!swap` on the generic two-participant scenario,
computed: players and states exchanged, tiles exchanged, metadata
pipeline applied. -/
theorem command_swap_apply_gsC6gen (p1 p2 : GamePlayer) (s1 s2 : TransformationState)
    (d0 : PackData) (t1 t2 : Int)
    (hfo1 : s1.form_owner_user_id = some 1)
    (hfo2 : s2.form_owner_user_id = some 2) :
    command_swap_apply (gsC6gen p1 p2 s1 s2 d0 t1 t2) 1 2 =
      { players := [(1, { user_id := p1.user_id, character_name := p2.character_name,
                          grid_position := p2.grid_position, background_id := p2.background_id,
                          outfit_name := p2.outfit_name }),
                    (2, { user_id := p2.user_id, character_name := p1.character_name,
                          grid_position := p1.grid_position, background_id := p1.background_id,
                          outfit_name := p1.outfit_name })],
        player_states :=
          [(1, { user_id := 1, guild_id := s1.guild_id,
                 character_name := s2.character_name,
                 character_folder := s2.character_folder,
                 character_avatar_path := s2.character_avatar_path,
                 character_message := s2.character_message,
                 original_nick := s1.original_nick, started_at := s1.started_at,
                 expires_at := s1.expires_at, duration_label := s1.duration_label,
                 avatar_applied := s1.avatar_applied,
                 original_display_name := s1.original_display_name,
                 is_inanimate := s2.is_inanimate,
                 inanimate_responses := s2.inanimate_responses,
                 form_owner_user_id := some 2,
                 identity_display_name := pyOrStr s1.identity_display_name s1.character_name,
                 is_pillow := s1.is_pillow }),
           (2, { user_id := 2, guild_id := s2.guild_id,
                 character_name := s1.character_name,
                 character_folder := s1.character_folder,
                 character_avatar_path := s1.character_avatar_path,
                 character_message := s1.character_message,
                 original_nick := s2.original_nick, started_at := s2.started_at,
                 expires_at := s2.expires_at, duration_label := s2.duration_label,
                 avatar_applied := s2.avatar_applied,
                 original_display_name := s2.original_display_name,
                 is_inanimate := s1.is_inanimate,
                 inanimate_responses := s1.inanimate_responses,
                 form_owner_user_id := some 1,
                 identity_display_name := pyOrStr s2.identity_display_name s2.character_name,
                 is_pillow := s2.is_pillow })],
        data := on_character_assigned (on_character_assigned
          (swap_pack_player_metadata { d0 with tile_numbers := [(1, t2), (2, t1)] } 1 2)
          1 p2.character_name) 2 p1.character_name } := by
  simp [command_swap_apply, gsC6gen, swap_tile_numbers, alistGet, alistSet, pyOrNat,
    hfo1, hfo2]

/-- Helper: the pack-data side of `_revert_swap_direct` when both
players and both states are present. -/
theorem revert_swap_direct_data (g : SwapState) (u1 u2 : Nat)
    (q1 q2 : GamePlayer) (w1 w2 : TransformationState)
    (h1 : alistGet g.players u1 = some q1) (h2 : alistGet g.players u2 = some q2)
    (h3 : alistGet g.player_states u1 = some w1)
    (h4 : alistGet g.player_states u2 = some w2) :
    (revert_swap_direct g u1 u2).data =
      on_character_assigned (on_character_assigned
        (swap_pack_player_metadata (swap_tile_numbers g.data u1 u2) u1 u2)
        u1 q2.character_name) u2 q1.character_name := by
  unfold revert_swap_direct
  rw [h1, h2, h3, h4]

/-- Helper: the player-record side of `_revert_swap_direct`: character,
grid position and background are exchanged; `outfit_name` is not
touched. -/
theorem revert_swap_direct_players (g : SwapState) (u1 u2 : Nat)
    (q1 q2 : GamePlayer) (w1 w2 : TransformationState)
    (h1 : alistGet g.players u1 = some q1) (h2 : alistGet g.players u2 = some q2)
    (h3 : alistGet g.player_states u1 = some w1)
    (h4 : alistGet g.player_states u2 = some w2) :
    (revert_swap_direct g u1 u2).players =
      alistSet (alistSet g.players u1
        { q1 with character_name := q2.character_name, grid_position := q2.grid_position,
                  background_id := q2.background_id }) u2
        { q2 with character_name := q1.character_name, grid_position := q1.grid_position,
                  background_id := q1.background_id } := by
  unfold revert_swap_direct
  rw [h1, h2, h3, h4]

/-- Helper: the transformation-state side of `_revert_swap_direct`:
character data exchanged, back-references reset to self. -/
theorem revert_swap_direct_states (g : SwapState) (u1 u2 : Nat)
    (q1 q2 : GamePlayer) (w1 w2 : TransformationState)
    (h1 : alistGet g.players u1 = some q1) (h2 : alistGet g.players u2 = some q2)
    (h3 : alistGet g.player_states u1 = some w1)
    (h4 : alistGet g.player_states u2 = some w2) :
    (revert_swap_direct g u1 u2).player_states =
      alistSet (alistSet g.player_states u1
        { user_id := u1, guild_id := w1.guild_id,
          character_name := w2.character_name, character_folder := w2.character_folder,
          character_avatar_path := w2.character_avatar_path,
          character_message := w2.character_message,
          original_nick := w1.original_nick, started_at := w1.started_at,
          expires_at := w1.expires_at, duration_label := w1.duration_label,
          avatar_applied := w1.avatar_applied,
          original_display_name := w1.original_display_name,
          is_inanimate := w2.is_inanimate, inanimate_responses := w2.inanimate_responses,
          form_owner_user_id := some u1,
          identity_display_name := pyOrStr w1.identity_display_name w1.character_name,
          is_pillow := w1.is_pillow }) u2
        { user_id := u2, guild_id := w2.guild_id,
          character_name := w1.character_name, character_folder := w1.character_folder,
          character_avatar_path := w1.character_avatar_path,
          character_message := w1.character_message,
          original_nick := w2.original_nick, started_at := w2.started_at,
          expires_at := w2.expires_at, duration_label := w2.duration_label,
          avatar_applied := w2.avatar_applied,
          original_display_name := w2.original_display_name,
          is_inanimate := w1.is_inanimate, inanimate_responses := w1.inanimate_responses,
          form_owner_user_id := some u2,
          identity_display_name := pyOrStr w2.identity_display_name w2.character_name,
          is_pillow := w2.is_pillow } := by
  unfold revert_swap_direct
  rw [h1, h2, h3, h4]

/-- C6 (amended): for two participants (ids 1 and 2, arbitrary field
values) who are not currently swapped, `revertChain(buildChain(1))`
immediately after a single `!swap` exchange rebuilds the chain as the
single pair (1, 2) and restores each participant's assigned role
(character), board coordinate, background and recorded tile to their
pre-exchange values, leaves turn-list order and player numbers
unchanged, and resets each back-reference to point to the participant
themselves; the outfit display metadata is NOT restored — it remains
exchanged. -/
theorem swap_revert_restores (p1 p2 : GamePlayer) (s1 s2 : TransformationState)
    (d0 : PackData) (t1 t2 : Int)
    (hfo1 : s1.form_owner_user_id = some 1)
    (hfo2 : s2.form_owner_user_id = some 2) :
    build_swap_chain (command_swap_apply (gsC6gen p1 p2 s1 s2 d0 t1 t2) 1 2) 1 = [(1, 2)] ∧
    alistGet (revert_swap_chain (command_swap_apply (gsC6gen p1 p2 s1 s2 d0 t1 t2) 1 2)
        (build_swap_chain (command_swap_apply (gsC6gen p1 p2 s1 s2 d0 t1 t2) 1 2) 1)).players
        1 =
      some { p1 with outfit_name := p2.outfit_name } ∧
    alistGet (revert_swap_chain (command_swap_apply (gsC6gen p1 p2 s1 s2 d0 t1 t2) 1 2)
        (build_swap_chain (command_swap_apply (gsC6gen p1 p2 s1 s2 d0 t1 t2) 1 2) 1)).players
        2 =
      some { p2 with outfit_name := p1.outfit_name } ∧
    alistGet (revert_swap_chain (command_swap_apply (gsC6gen p1 p2 s1 s2 d0 t1 t2) 1 2)
        (build_swap_chain (command_swap_apply (gsC6gen p1 p2 s1 s2 d0 t1 t2) 1 2)
          1)).data.tile_numbers 1 = some t1 ∧
    alistGet (revert_swap_chain (command_swap_apply (gsC6gen p1 p2 s1 s2 d0 t1 t2) 1 2)
        (build_swap_chain (command_swap_apply (gsC6gen p1 p2 s1 s2 d0 t1 t2) 1 2)
          1)).data.tile_numbers 2 = some t2 ∧
    (revert_swap_chain (command_swap_apply (gsC6gen p1 p2 s1 s2 d0 t1 t2) 1 2)
        (build_swap_chain (command_swap_apply (gsC6gen p1 p2 s1 s2 d0 t1 t2) 1 2)
          1)).data.turn_order = d0.turn_order ∧
    (revert_swap_chain (command_swap_apply (gsC6gen p1 p2 s1 s2 d0 t1 t2) 1 2)
        (build_swap_chain (command_swap_apply (gsC6gen p1 p2 s1 s2 d0 t1 t2) 1 2)
          1)).data.player_numbers = d0.player_numbers ∧
    (alistGet (revert_swap_chain (command_swap_apply (gsC6gen p1 p2 s1 s2 d0 t1 t2) 1 2)
        (build_swap_chain (command_swap_apply (gsC6gen p1 p2 s1 s2 d0 t1 t2) 1 2)
          1)).player_states 1).map
        (fun s => (s.character_name, s.character_folder, s.character_avatar_path,
          s.form_owner_user_id)) =
      some (s1.character_name, s1.character_folder, s1.character_avatar_path, some 1) ∧
    (alistGet (revert_swap_chain (command_swap_apply (gsC6gen p1 p2 s1 s2 d0 t1 t2) 1 2)
        (build_swap_chain (command_swap_apply (gsC6gen p1 p2 s1 s2 d0 t1 t2) 1 2)
          1)).player_states 2).map
        (fun s => (s.character_name, s.character_folder, s.character_avatar_path,
          s.form_owner_user_id)) =
      some (s2.character_name, s2.character_folder, s2.character_avatar_path, some 2) := by
  have hG1 := command_swap_apply_gsC6gen p1 p2 s1 s2 d0 t1 t2 hfo1 hfo2
  set G1 := command_swap_apply (gsC6gen p1 p2 s1 s2 d0 t1 t2) 1 2 with hdef
  have hp1 : alistGet G1.players 1 = some { user_id := p1.user_id, character_name := p2.character_name, grid_position := p2.grid_position, background_id := p2.background_id, outfit_name := p2.outfit_name } := by
    rw [hG1]
    simp [alistGet]
  have hp2 : alistGet G1.players 2 = some { user_id := p2.user_id, character_name := p1.character_name, grid_position := p1.grid_position, background_id := p1.background_id, outfit_name := p1.outfit_name } := by
    rw [hG1]
    simp [alistGet]
  have hs1 : alistGet G1.player_states 1 = some { user_id := 1, guild_id := s1.guild_id, character_name := s2.character_name, character_folder := s2.character_folder, character_avatar_path := s2.character_avatar_path, character_message := s2.character_message, original_nick := s1.original_nick, started_at := s1.started_at, expires_at := s1.expires_at, duration_label := s1.duration_label, avatar_applied := s1.avatar_applied, original_display_name := s1.original_display_name, is_inanimate := s2.is_inanimate, inanimate_responses := s2.inanimate_responses, form_owner_user_id := some 2, identity_display_name := pyOrStr s1.identity_display_name s1.character_name, is_pillow := s1.is_pillow } := by
    rw [hG1]
    simp [alistGet]
  have hs2 : alistGet G1.player_states 2 = some { user_id := 2, guild_id := s2.guild_id, character_name := s1.character_name, character_folder := s1.character_folder, character_avatar_path := s1.character_avatar_path, character_message := s1.character_message, original_nick := s2.original_nick, started_at := s2.started_at, expires_at := s2.expires_at, duration_label := s2.duration_label, avatar_applied := s2.avatar_applied, original_display_name := s2.original_display_name, is_inanimate := s1.is_inanimate, inanimate_responses := s1.inanimate_responses, form_owner_user_id := some 1, identity_display_name := pyOrStr s2.identity_display_name s2.character_name, is_pillow := s2.is_pillow } := by
    rw [hG1]
    simp [alistGet]
  have hchain : build_swap_chain G1 1 = [(1, 2)] := by
    rw [hG1]
    simp [build_swap_chain, build_swap_chain_go, alistGet]
  have hrc : revert_swap_chain G1 (build_swap_chain G1 1) = revert_swap_direct G1 1 2 := by
    rw [hchain]
    rfl
  have hGd : G1.data.tile_numbers = [(1, t2), (2, t1)] := by
    rw [hG1]
    exact swap_meta_pipeline_tiles _ 1 2 _ _
  have hsw : swap_tile_numbers G1.data 1 2 =
      { G1.data with tile_numbers := [(1, t1), (2, t2)] } := by
    unfold swap_tile_numbers
    rw [hGd]
    simp [alistGet, alistSet]
  have hdata := revert_swap_direct_data G1 1 2 _ _ _ _ hp1 hp2 hs1 hs2
  have hplayers := revert_swap_direct_players G1 1 2 _ _ _ _ hp1 hp2 hs1 hs2
  have hstates := revert_swap_direct_states G1 1 2 _ _ _ _ hp1 hp2 hs1 hs2
  refine ⟨hchain, ?_, ?_, ?_, ?_, ?_, ?_, ?_, ?_⟩
  · rw [hrc, hplayers, hG1]
    simp [alistGet, alistSet]
  · rw [hrc, hplayers, hG1]
    simp [alistGet, alistSet]
  · rw [hrc, hdata, swap_meta_pipeline_tiles, hsw]
    simp [alistGet]
  · rw [hrc, hdata, swap_meta_pipeline_tiles, hsw]
    simp [alistGet]
  · rw [hrc, hdata, swap_meta_pipeline_turn_order, hsw]
    rw [hG1]
    exact swap_meta_pipeline_turn_order _ 1 2 _ _
  · rw [hrc, hdata, swap_meta_pipeline_player_numbers, hsw]
    rw [hG1]
    exact swap_meta_pipeline_player_numbers _ 1 2 _ _
  · rw [hrc, hstates, hG1]
    simp [alistGet, alistSet]
  · rw [hrc, hstates, hG1]
    simp [alistGet, alistSet]

/-- Witness for C6 (amended) at concrete field values: the chain is
(1, 2), Alice gets her role, coordinate and background back but keeps
Bob's outfit. -/
theorem swap_revert_restores_witness :
    build_swap_chain (command_swap_apply (gsC6gen { user_id := 1, character_name := some "Alice", grid_position := "A1", background_id := some 10, outfit_name := some "dress" } { user_id := 2, character_name := some "Bob", grid_position := "B2", background_id := some 20, outfit_name := some "suit" } { user_id := 1, guild_id := 5, character_name := some "Alice", form_owner_user_id := some 1 } { user_id := 2, guild_id := 5, character_name := some "Bob", form_owner_user_id := some 2 } {} 10 20) 1 2) 1 = [(1, 2)] ∧
    alistGet (revert_swap_chain (command_swap_apply (gsC6gen { user_id := 1, character_name := some "Alice", grid_position := "A1", background_id := some 10, outfit_name := some "dress" } { user_id := 2, character_name := some "Bob", grid_position := "B2", background_id := some 20, outfit_name := some "suit" } { user_id := 1, guild_id := 5, character_name := some "Alice", form_owner_user_id := some 1 } { user_id := 2, guild_id := 5, character_name := some "Bob", form_owner_user_id := some 2 } {} 10 20) 1 2) (build_swap_chain (command_swap_apply (gsC6gen { user_id := 1, character_name := some "Alice", grid_position := "A1", background_id := some 10, outfit_name := some "dress" } { user_id := 2, character_name := some "Bob", grid_position := "B2", background_id := some 20, outfit_name := some "suit" } { user_id := 1, guild_id := 5, character_name := some "Alice", form_owner_user_id := some 1 } { user_id := 2, guild_id := 5, character_name := some "Bob", form_owner_user_id := some 2 } {} 10 20) 1 2) 1)).players 1 =
      some { user_id := 1, character_name := some "Alice", grid_position := "A1", background_id := some 10, outfit_name := some "suit" } := by
  have h := swap_revert_restores
    { user_id := 1, character_name := some "Alice", grid_position := "A1", background_id := some 10, outfit_name := some "dress" }
    { user_id := 2, character_name := some "Bob", grid_position := "B2", background_id := some 20, outfit_name := some "suit" }
    { user_id := 1, guild_id := 5, character_name := some "Alice", form_owner_user_id := some 1 }
    { user_id := 2, guild_id := 5, character_name := some "Bob", form_owner_user_id := some 2 }
    {} 10 20 rfl rfl
  exact ⟨h.1, h.2.1⟩
